import Mathlib

/-!
Shallow embedding of the AirCommuter flight/economy engine
(`src/services.py`, `src/seat_types.py`, `src/catalog.py`) in Lean 4.

Conventions of the embedding:
* Python `int` is `ℤ`; Python `float` is `ℚ` (all arithmetic in the engine is
  elementary, so exact rational arithmetic mirrors the float computations on
  the inputs the theorems touch; `int()` truncation and `round()` banker's
  rounding are modelled explicitly by `pyInt` and `pyRound`).
* The persisted JSON document is the `State` structure; every service
  function is a pure function `... → State → Except String State` (or a
  result/state pair).  A Python `raise` before `save_state` is `Except.error`,
  which by construction leaves the persisted state unchanged.
* Randomness (walkaround snag rolls, passenger-feedback impact draws, nightly
  parking fees) is passed in as explicit parameters; day/time stamps are
  explicit arguments.
-/

namespace AirCommuter

/-- Python `int()` applied to a real value: truncation toward zero. -/
def pyInt (q : ℚ) : ℤ := if q < 0 then ⌈q⌉ else ⌊q⌋

/-- Python `round()` to an integer: round half to even (banker's rounding). -/
def pyRound (q : ℚ) : ℤ :=
  if q - (⌊q⌋ : ℚ) < 1/2 then ⌊q⌋
  else if (1/2 : ℚ) < q - (⌊q⌋ : ℚ) then ⌊q⌋ + 1
  else if ⌊q⌋ % 2 = 0 then ⌊q⌋ else ⌊q⌋ + 1

/-- ASCII uppercase of one character (Python `str.upper()` on the engine's
ASCII identifiers). -/
def charUpper (c : Char) : Char :=
  if 97 ≤ c.toNat ∧ c.toNat ≤ 122 then Char.ofNat (c.toNat - 32) else c

/-- Python `s.upper()`. -/
def strUpper (t : String) : String := String.mk (t.data.map charUpper)

/-- Helper for `str.split(sep)`: split a character list on a separator,
keeping empty chunks exactly as Python does. -/
def splitCharList (sep : Char) : List Char → List (List Char)
  | [] => [[]]
  | c :: rest =>
    let r := splitCharList sep rest
    if c = sep then [] :: r
    else
      match r with
      | h :: t2 => (c :: h) :: t2
      | [] => [[c]]

/-- Python `s.split(sep)` for a one-character separator. -/
def strSplitOn (sep : Char) (t : String) : List String :=
  (splitCharList sep t.data).map String.mk

/-- Whitespace test for `str.strip()`. -/
def isSpaceChar (c : Char) : Bool := c = ' ' || c = '\t' || c = '\n' || c = '\r'

/-- Python `s.strip()`. -/
def strTrim (t : String) : String :=
  String.mk (((t.data.dropWhile isSpaceChar).reverse.dropWhile isSpaceChar).reverse)

/-! ## Seat / cabin model (`src/seat_types.py`) -/

/-- One entry of the static seat-type table. -/
structure SeatType where
  code : String
  name : String
  costPerSeat : ℤ
  comfort : ℚ
  deriving Repr, DecidableEq

/-- Source `get_seat_types()`: the static seat-type table. -/
def seatTypes : List SeatType :=
  [ { code := "SLIM", name := "Slimline HD", costPerSeat := 500, comfort := 1 },
    { code := "RECL", name := "Recliner Shorthaul", costPerSeat := 1500, comfort := 3/2 },
    { code := "LIE140", name := "Lie Flat 140", costPerSeat := 3500, comfort := 5/2 },
    { code := "LIE180", name := "Full Lie Flat", costPerSeat := 6000, comfort := 7/2 },
    { code := "BUSINESS", name := "Business Class", costPerSeat := 2500, comfort := 2 },
    { code := "PREMIUM", name := "Premium Economy", costPerSeat := 1000, comfort := 13/10 } ]

/-- Source `get_seat_type(code)`: lookup by code, defaulting to the first entry. -/
def getSeatType (code : String) : SeatType :=
  (seatTypes.find? (fun st => st.code = code)).getD
    { code := "SLIM", name := "Slimline HD", costPerSeat := 500, comfort := 1 }

/-- One row of a cabin layout (`{row, seat_type, seats}`). -/
structure CabinRow where
  row : ℤ
  seatType : String
  seats : ℤ
  deriving Repr, DecidableEq

/-- Source `calculate_cabin_total_seats(layout)`. -/
def calculateCabinTotalSeats (layout : List CabinRow) : ℤ :=
  if layout = [] then 0
  else (layout.map (fun r => r.seats)).sum

/-- Source `calculate_cabin_comfort(layout)`: seat-count-weighted average comfort,
`1.0` for an empty layout or a zero seat total. -/
def calculateCabinComfort (layout : List CabinRow) : ℚ :=
  if layout = [] then 1
  else
    let totalComfort := (layout.map (fun r => (getSeatType r.seatType).comfort * (r.seats : ℚ))).sum
    let totalSeats := (layout.map (fun r => r.seats)).sum
    if totalSeats > 0 then totalComfort / (totalSeats : ℚ) else 1

/-- Loop body of `get_default_layout`: `rows` remaining iterations, current
0-based row index `i`, seats per row, and seats still to place. -/
def buildDefaultRows : ℕ → ℤ → ℤ → ℤ → List CabinRow
  | 0, _, _, _ => []
  | k + 1, i, seatsPerRow, remaining =>
    if remaining ≤ 0 then []
    else
      { row := i + 1, seatType := "SLIM", seats := min seatsPerRow remaining } ::
        buildDefaultRows k (i + 1) seatsPerRow (remaining - min seatsPerRow remaining)

/-- Source `get_default_layout(capacity, max_seats_per_row, max_rows)`.  When
`min(max_seats_per_row, capacity) = 0` the Python source raises
`ZeroDivisionError` in the row-count computation, modelled as an error. -/
def getDefaultLayout (capacity maxSeatsPerRow maxRows : ℤ) : Except String (List CabinRow) :=
  let seatsPerRow := min maxSeatsPerRow capacity
  if seatsPerRow = 0 then .error "integer division or modulo by zero"
  else
    let rows := max 1 (min maxRows ((capacity + seatsPerRow - 1).fdiv seatsPerRow))
    .ok (buildDefaultRows rows.toNat 0 seatsPerRow capacity)

/-! ## Static catalog (`src/catalog.py`) -/

/-- One entry of `aircraft_catalog()`; `oilCapacity`/`oilMinimum` are present
only for the smaller oil-tracked types. -/
structure CatalogEntry where
  typeCode : String
  name : String
  price : ℤ
  capacity : ℤ
  rangeNm : ℚ
  hourlyCost : ℚ
  maxDurationHours : ℚ
  maxSeatsPerRow : ℤ
  maxRows : ℤ
  oilCapacity : Option ℚ
  oilMinimum : Option ℚ
  deriving Repr, DecidableEq

/-- Source `aircraft_catalog()`: the static aircraft-type table. -/
def aircraftCatalog : List CatalogEntry :=
  [ { typeCode := "C337", name := "Cessna 337 Skymaster", price := 180000, capacity := 5,
      rangeNm := 1308, hourlyCost := 20, maxDurationHours := 6, maxSeatsPerRow := 2,
      maxRows := 3, oilCapacity := some 24, oilMinimum := some 7 },
    { typeCode := "BE58", name := "Baron 58", price := 250000, capacity := 5,
      rangeNm := 860, hourlyCost := 20, maxDurationHours := 6, maxSeatsPerRow := 2,
      maxRows := 3, oilCapacity := some 24, oilMinimum := some 5 },
    { typeCode := "C404", name := "Cessna 404 Titan", price := 400000, capacity := 10,
      rangeNm := 1843, hourlyCost := 40, maxDurationHours := 9, maxSeatsPerRow := 2,
      maxRows := 5, oilCapacity := some 20, oilMinimum := some 6 },
    { typeCode := "C90B", name := "Beechcraft King Air 90", price := 600000, capacity := 6,
      rangeNm := 1039, hourlyCost := 100, maxDurationHours := 6, maxSeatsPerRow := 2,
      maxRows := 3, oilCapacity := some 18, oilMinimum := some 7 },
    { typeCode := "DHC6", name := "De Havilland Canada DHC-6 Twin Otter", price := 1000000,
      capacity := 19, rangeNm := 650, hourlyCost := 200, maxDurationHours := 9,
      maxSeatsPerRow := 3, maxRows := 7, oilCapacity := some 18, oilMinimum := some 6 },
    { typeCode := "B190", name := "Beechcraft 1900", price := 1500000, capacity := 19,
      rangeNm := 1476, hourlyCost := 140, maxDurationHours := 6, maxSeatsPerRow := 3,
      maxRows := 7, oilCapacity := none, oilMinimum := none },
    { typeCode := "L410", name := "Turbolet L410", price := 1000000, capacity := 19,
      rangeNm := 294, hourlyCost := 140, maxDurationHours := 5, maxSeatsPerRow := 3,
      maxRows := 7, oilCapacity := some 16, oilMinimum := some 6 },
    { typeCode := "B350", name := "Beechcraft King Air 350", price := 1850000, capacity := 8,
      rangeNm := 2000, hourlyCost := 155, maxDurationHours := 9/2, maxSeatsPerRow := 2,
      maxRows := 4, oilCapacity := none, oilMinimum := none },
    { typeCode := "M700", name := "Piper 700 Aerostar", price := 300000, capacity := 5,
      rangeNm := 644, hourlyCost := 40, maxDurationHours := 7, maxSeatsPerRow := 2,
      maxRows := 3, oilCapacity := none, oilMinimum := none },
    { typeCode := "C208", name := "Cessna 208 Caravan", price := 2500000, capacity := 12,
      rangeNm := 1200, hourlyCost := 30, maxDurationHours := 11/2, maxSeatsPerRow := 3,
      maxRows := 4, oilCapacity := some 16, oilMinimum := some 6 },
    { typeCode := "E55P", name := "Embraer Phenom 300", price := 5000000, capacity := 8,
      rangeNm := 2010, hourlyCost := 170, maxDurationHours := 9/2, maxSeatsPerRow := 2,
      maxRows := 4, oilCapacity := none, oilMinimum := none },
    { typeCode := "AT72", name := "ATR 72-600", price := 14000000, capacity := 70,
      rangeNm := 825, hourlyCost := 360, maxDurationHours := 7/2, maxSeatsPerRow := 4,
      maxRows := 20, oilCapacity := some 24, oilMinimum := some 10 },
    { typeCode := "E190", name := "Embraer E190", price := 30000000, capacity := 100,
      rangeNm := 1600, hourlyCost := 360, maxDurationHours := 9/2, maxSeatsPerRow := 4,
      maxRows := 28, oilCapacity := none, oilMinimum := none },
    { typeCode := "A320", name := "Airbus A320-200", price := 51000000, capacity := 150,
      rangeNm := 3300, hourlyCost := 560, maxDurationHours := 13/2, maxSeatsPerRow := 6,
      maxRows := 40, oilCapacity := none, oilMinimum := none },
    { typeCode := "B738", name := "Boeing 737-800", price := 48000000, capacity := 162,
      rangeNm := 2935, hourlyCost := 520, maxDurationHours := 13/2, maxSeatsPerRow := 6,
      maxRows := 40, oilCapacity := none, oilMinimum := none } ]

/-- Catalog lookup by type code (`cat.get(type_code)`). -/
def catalogLookup (typeCode : String) : Option CatalogEntry :=
  aircraftCatalog.find? (fun c => c.typeCode = typeCode)

/-! ## Data model (`src/services.py` state document)

Python stores each entity as a dict with optional keys and documented
defaults; the embedding bakes the `.get(key, default)` defaults into total
structure fields.  The presence of the `oil_level`/`oil_capacity` keys (the
oil-tracking discriminator) is an `Option OilState` field. -/

/-- A discovered fault.  `severity` is one of the strings
"Minor" / "Major" / "Critical" exactly as in the source. -/
structure Snag where
  snagId : String
  component : String
  severity : String
  mel : Bool
  deriving Repr, DecidableEq

/-- Oil-tracking fields of a smaller aircraft (present only when the catalog
entry defines oil tracking). -/
structure OilState where
  level : ℚ
  capacity : ℚ
  minimum : ℚ
  hoursSinceRefill : ℚ
  hoursSinceChange : ℚ
  deriving Repr, DecidableEq

/-- Recently purchased airport services for an aircraft
(`aircraft["last_services"]`), with timestamps; absent entries default to
`0`/`none` as in the Python `.get(..., 0)` reads. -/
structure Services where
  refueling : Option ℤ
  groundPower : ℤ
  catering : ℤ
  cleaning : ℤ
  deriving Repr, DecidableEq

/-- A fleet aircraft. -/
structure Aircraft where
  id : String
  typeCode : String
  name : String
  purchasePrice : ℤ
  totalHours : ℚ
  hoursSinceACheck : ℚ
  hoursSinceBCheck : ℚ
  hoursSinceCCheck : ℚ
  hoursSinceMaintenance : ℚ
  maintenanceDueHours : ℚ
  location : String
  reliability : ℚ
  grounded : Bool
  cabinLayout : List CabinRow
  snags : List Snag
  oil : Option OilState
  lastServices : Services
  lastPenaltyDay : ℤ
  deriving Repr, DecidableEq

/-- An active flight record as created by `start_flight`.  The randomly
jittered `weight_manifest` is presentation data never read by the settlement
path and is not modelled. -/
structure Flight where
  flightId : String
  aircraftId : String
  route : String
  dest : String
  origin : String
  durationHours : ℚ
  passengers : ℤ
  ticketPrice : ℤ
  etaTs : ℤ
  paxRequested : ℤ
  baselinePrice : ℤ
  cabinComfort : ℚ
  pilotAssigned : Option String
  pilotSkillBonus : ℚ
  seasonalMultiplier : ℚ
  deriving Repr, DecidableEq

/-- A completed-flight summary appended by `end_flight`. -/
structure CompletedFlight where
  timestamp : ℤ
  route : String
  revenue : ℤ
  cost : ℤ
  passengers : ℤ
  capacity : ℤ
  deriving Repr, DecidableEq

/-- A ledger entry (append-only, capped at the last 1000). -/
structure LedgerEntry where
  ts : ℤ
  category : String
  amount : ℤ
  note : String
  deriving Repr, DecidableEq

/-- A loan record. -/
structure Loan where
  loanId : String
  principal : ℤ
  interestRateApr : ℚ
  termMonths : ℤ
  monthlyPayment : ℤ
  remainingBalance : ℤ
  startDate : ℤ
  lastPaymentMonth : ℤ
  bankName : String
  deriving Repr, DecidableEq

/-- A lease record. -/
structure Lease where
  leaseId : String
  aircraftId : String
  monthlyPayment : ℤ
  startDate : ℤ
  termMonths : ℤ
  lastPaymentMonth : ℤ
  deriving Repr, DecidableEq

/-- A pilot record (only the fields the embedded operations read). -/
structure Pilot where
  pilotId : String
  name : String
  skillLevel : ℤ
  assignedAircraftId : Option String
  deriving Repr, DecidableEq

/-- Owned parking at one airport.  The source stores lists of named
spots/hangars (or legacy integer counts) but every reader only uses the
counts, so the embedding keeps the counts. -/
structure ParkingInfo where
  spots : ℕ
  hangars : ℕ
  deriving Repr, DecidableEq

/-- The company sub-record. -/
structure Company where
  name : String
  reputation : ℚ
  deriving Repr, DecidableEq

/-- The root `CompanyState` JSON document, with the `get_state()` defaults
baked in as total fields. -/
structure State where
  cash : ℤ
  company : Company
  fleet : List Aircraft
  loans : List Loan
  leases : List Lease
  activeFlights : List Flight
  completedFlights : List CompletedFlight
  ledger : List LedgerEntry
  parking : List (String × ParkingInfo)
  pilots : List Pilot
  achievements : List String
  fuelPriceMultiplier : ℚ
  lastDailyTickDay : ℤ
  deriving Repr, DecidableEq

/-! ## Shared state helpers -/

/-- Source `_add_ledger(state, category, amount, note)`: append and keep the last
1000 entries. -/
def addLedger (s : State) (ts : ℤ) (category : String) (amount : ℤ) (note : String) : State :=
  let l := s.ledger ++ [{ ts := ts, category := category, amount := amount, note := note }]
  { s with ledger := if l.length > 1000 then l.drop (l.length - 1000) else l }

/-- Source `next((ac for ac in fleet if ac.get("id") == aircraft_id), None)`. -/
def findAircraftInFleet (fleet : List Aircraft) (aircraftId : String) : Option Aircraft :=
  fleet.find? (fun ac => ac.id = aircraftId)

/-- In-place mutation of the first fleet aircraft with the given id
(Python mutates the object returned by `next(...)`). -/
def updateFirstAircraft (fleet : List Aircraft) (aircraftId : String)
    (f : Aircraft → Aircraft) : List Aircraft :=
  match fleet with
  | [] => []
  | ac :: rest =>
    if ac.id = aircraftId then f ac :: rest
    else ac :: updateFirstAircraft rest aircraftId f

/-- Find the first active flight with the given id and pop it from the list
(`idx = next(...)`, `flight = flights.pop(idx)`). -/
def popFlight (flights : List Flight) (flightId : String) : Option (Flight × List Flight) :=
  match flights with
  | [] => none
  | f :: rest =>
    if f.flightId = flightId then some (f, rest)
    else (popFlight rest flightId).map (fun p => (p.1, f :: p.2))

/-- Source `_has_owned_parking(state, airport)`. -/
def hasOwnedParking (s : State) (airport : String) : Bool :=
  match (s.parking.find? (fun p => p.1 = strUpper airport)).map Prod.snd with
  | none => false
  | some info => info.spots > 0 || info.hangars > 0

/-- Source `get_aircraft_services(aircraft_id)`: recent services of an aircraft,
empty defaults when the aircraft is unknown. -/
def getAircraftServices (s : State) (aircraftId : String) : Services :=
  match findAircraftInFleet s.fleet aircraftId with
  | none => { refueling := none, groundPower := 0, catering := 0, cleaning := 0 }
  | some ac => ac.lastServices

/-- Source `MAINTENANCE_INTERVALS` (A/B/C check intervals in flight hours). -/
def maintenanceIntervalA : ℚ := 150
/-- Source `MAINTENANCE_INTERVALS["B"]`. -/
def maintenanceIntervalB : ℚ := 750
/-- Source `MAINTENANCE_INTERVALS["C"]`. -/
def maintenanceIntervalC : ℚ := 4000

/-! ## Reputation (`update_reputation`, `calculate_reputation_bonus`) -/

/-- Source `update_reputation(change, state)`: add `change` to `company.reputation`,
clamp to `[0, 100]`, store and return the new value. -/
def updateReputation (change : ℚ) (s : State) : ℚ × State :=
  let currentReputation := s.company.reputation
  let newReputation := max 0 (min 100 (currentReputation + change))
  (newReputation, { s with company := { s.company with reputation := newReputation } })

/-- Source `calculate_reputation_bonus(reputation, base_revenue)`: piecewise-linear
percentage of revenue over the reputation bands, truncated to an int. -/
def calculateReputationBonus (reputation : ℚ) (baseRevenue : ℤ) : ℤ :=
  let bonusPercent : ℚ :=
    if reputation < 20 then -1/10 + (reputation / 20) * (1/20)
    else if reputation < 40 then -1/20 + ((reputation - 20) / 20) * (1/20)
    else if reputation < 60 then ((reputation - 40) / 20) * (1/20)
    else if reputation < 80 then 1/20 + ((reputation - 60) / 20) * (1/10)
    else 3/20 + ((reputation - 80) / 20) * (1/10)
  pyInt ((baseRevenue : ℚ) * bonusPercent)

/-! ## Loans (`calculate_max_loan_amount`, `take_loan`) -/

/-- Total outstanding debt (`sum of remaining_balance over loans`). -/
def totalDebt (s : State) : ℤ :=
  (s.loans.map (fun l => l.remainingBalance)).sum

/-- Source `calculate_max_loan_amount()`: credit limit from cash, depreciated fleet
value and reputation, minus existing debt, clamped to `[10000, 50000000]`. -/
def calculateMaxLoanAmount (s : State) : ℤ :=
  let fleetValue := (s.fleet.map (fun ac =>
    match catalogLookup ac.typeCode with
    | none => 0
    | some info =>
      let depreciation := min (1/2 : ℚ) (ac.totalHours / 10000)
      pyInt ((info.price : ℚ) * (1 - depreciation)))).sum
  let cashBasedLimit := s.cash * 5
  let assetBasedLimit := pyInt ((fleetValue : ℚ) * (1/2))
  let repMultiplier := 1/2 + (s.company.reputation / 100) * (3/2)
  let maxLoan := pyInt (((cashBasedLimit + assetBasedLimit : ℤ) : ℚ) * repMultiplier)
  let availableCredit := max 0 (maxLoan - totalDebt s)
  max 10000 (min 50000000 availableCredit)

/-- Source `take_loan(principal, interest_rate_apr, term_months, bank_name)`.
The fresh loan id and the clock are explicit arguments; an annuity payment
whose denominator vanishes mirrors the Python `ZeroDivisionError`. -/
def takeLoan (now dayNow : ℤ) (newLoanId : String) (principal : ℤ)
    (interestRateApr : ℚ) (termMonths : ℤ) (bankName : String) (s : State) :
    Except String State :=
  if principal ≤ 0 then .error "Principal must be positive"
  else
    let maxLoan := calculateMaxLoanAmount s
    if principal > maxLoan - totalDebt s then
      .error "Loan amount exceeds available credit"
    else
      let rate := interestRateApr / 12
      let paymentE : Except String ℤ :=
        if rate = 0 then
          if termMonths = 0 then .error "integer division or modulo by zero"
          else .ok (principal.fdiv termMonths)
        else
          let growth := (1 + rate) ^ termMonths
          if growth - 1 = 0 then .error "float division by zero"
          else .ok (pyInt ((principal : ℚ) * (rate * growth) / (growth - 1)))
      match paymentE with
      | .error e => .error e
      | .ok payment =>
        let loan : Loan := {
          loanId := newLoanId, principal := principal,
          interestRateApr := interestRateApr, termMonths := termMonths,
          monthlyPayment := payment, remainingBalance := principal,
          startDate := dayNow, lastPaymentMonth := -1, bankName := bankName }
        let s1 := { s with cash := s.cash + principal, loans := s.loans ++ [loan] }
        .ok (addLedger s1 now "loan" principal "Loan taken")

/-! ## Maintenance (`perform_maintenance_level`) -/

/-- Source `perform_maintenance_level(aircraft_id, level)`: charge the level's cost,
reset that check counter, restore partial reliability; a C check additionally
un-grounds, clears all snags and (for oil-tracked aircraft) fully services
the oil. -/
def performMaintenanceLevel (now : ℤ) (aircraftId level : String) (s : State) :
    Except String State :=
  match findAircraftInFleet s.fleet aircraftId with
  | none => .error "Aircraft not found"
  | some _ =>
    let costOpt : Option ℤ :=
      if strUpper level = "A" then some 50000
      else if strUpper level = "B" then some 200000
      else if strUpper level = "C" then some 800000
      else none
    match costOpt with
    | none => .error "Invalid maintenance level"
    | some cost =>
      if cost > s.cash then .error "Insufficient cash"
      else
        let upd : Aircraft → Aircraft := fun ac =>
          if strUpper level = "A" then
            { ac with
              hoursSinceACheck := 0
              reliability := min 1 (ac.reliability + 1/20)
              snags := ac.snags.filter (fun sn => sn.severity ≠ "Minor") }
          else if strUpper level = "B" then
            { ac with
              hoursSinceBCheck := 0
              reliability := min 1 (ac.reliability + 1/10)
              snags := ac.snags.filter (fun sn => sn.severity = "Critical") }
          else
            { ac with
              hoursSinceCCheck := 0
              reliability := min 1 (ac.reliability + 1/5)
              grounded := false
              snags := []
              oil := ac.oil.map (fun o =>
                { o with level := o.capacity, hoursSinceRefill := 0, hoursSinceChange := 0 }) }
        let s1 := { s with
          fleet := updateFirstAircraft s.fleet aircraftId upd
          cash := s.cash - cost }
        .ok (addLedger s1 now "maintenance" (-cost) "Check")

/-! ## Oil (`refill_aircraft_oil`, `change_aircraft_oil`) -/

/-- Source `refill_aircraft_oil(aircraft_id)`: top up to capacity at $50/quart and
reset only the refill timer; silently returns (no save) when already full;
errors for aircraft without oil tracking. -/
def refillAircraftOil (now : ℤ) (aircraftId : String) (s : State) :
    Except String State :=
  match findAircraftInFleet s.fleet aircraftId with
  | none => .error "Aircraft not found"
  | some ac =>
    match ac.oil with
    | none => .error "This aircraft type does not require manual oil refills"
    | some o =>
      let oilNeeded := o.capacity - o.level
      if oilNeeded ≤ 0 then .ok s
      else
        let cost := pyInt (oilNeeded * 50)
        if cost > s.cash then .error "Insufficient cash"
        else
          let s1 := { s with
            fleet := updateFirstAircraft s.fleet aircraftId (fun ac2 =>
              { ac2 with oil := ac2.oil.map (fun o2 =>
                  { o2 with level := o2.capacity, hoursSinceRefill := 0 }) })
            cash := s.cash - cost }
          .ok (addLedger s1 now "oil" (-cost) "Oil top-up")

/-- Source `change_aircraft_oil(aircraft_id)`: full oil change at $100/quart on the
whole capacity, resetting both the refill and the change timers; errors for
aircraft without oil tracking. -/
def changeAircraftOil (now : ℤ) (aircraftId : String) (s : State) :
    Except String State :=
  match findAircraftInFleet s.fleet aircraftId with
  | none => .error "Aircraft not found"
  | some ac =>
    match ac.oil with
    | none => .error "This aircraft type does not require manual oil changes"
    | some o =>
      let cost := pyInt (o.capacity * 100)
      if cost > s.cash then .error "Insufficient cash"
      else
        let s1 := { s with
          fleet := updateFirstAircraft s.fleet aircraftId (fun ac2 =>
            { ac2 with oil := ac2.oil.map (fun o2 =>
                { o2 with level := o2.capacity, hoursSinceRefill := 0, hoursSinceChange := 0 }) })
          cash := s.cash - cost }
        .ok (addLedger s1 now "oil" (-cost) "Full oil change")

/-! ## Preflight gate (`preflight_check`) -/

/-- The dict returned by `preflight_check`. -/
structure PreflightResult where
  failed : Bool
  component : Option String
  severity : Option String
  mel : Bool
  deriving Repr, DecidableEq

/-- Source `preflight_check(aircraft_id, flight_hours)`: a returned verdict, not a
raised error.  (The source's in-memory grounding on a critically overdue
C check is never saved, so the persisted state is unchanged.) -/
def preflightCheck (aircraftId : String) (flightHours : ℚ) (s : State) :
    Except String PreflightResult :=
  match findAircraftInFleet s.fleet aircraftId with
  | none => .error "Aircraft not found"
  | some ac =>
    if ac.grounded then
      .ok { failed := true, component := some "Aircraft Status",
            severity := some "Critical", mel := false }
    else if ac.hoursSinceCCheck > maintenanceIntervalC * (6/5) then
      .ok { failed := true, component := some "C Check",
            severity := some "Critical", mel := false }
    else if flightHours > 0 ∧ ac.hoursSinceCCheck + flightHours > maintenanceIntervalC * (6/5) then
      .ok { failed := true, component := some "C Check Projection",
            severity := some "Critical", mel := false }
    else
      .ok { failed := false, component := none, severity := none, mel := false }

/-! ## Pricing and demand (`start_flight`, §4.2) -/

/-- Source `get_seasonal_demand_multiplier()` as a function of the calendar month. -/
def getSeasonalDemandMultiplier (month : ℤ) : ℚ :=
  if month = 12 ∨ month = 1 then 13/10
  else if month = 6 ∨ month = 7 ∨ month = 8 then 6/5
  else if month = 2 then 9/10
  else 1

/-- Cabin capacity used by `start_flight`: the layout's seat total when the
layout is nonempty with a positive total, else the catalog capacity
(default 150). -/
def flightCapacity (ac : Aircraft) : ℤ :=
  let actualCapacity := if ac.cabinLayout ≠ [] then calculateCabinTotalSeats ac.cabinLayout else 0
  if actualCapacity > 0 then actualCapacity
  else
    match catalogLookup ac.typeCode with
    | some info => info.capacity
    | none => 150

/-- Cabin comfort used by `start_flight` (1.0 without a layout). -/
def flightComfort (ac : Aircraft) : ℚ :=
  if ac.cabinLayout ≠ [] then calculateCabinComfort ac.cabinLayout else 1

/-- Hourly cost from the catalog (default 2000). -/
def flightHourlyCost (typeCode : String) : ℚ :=
  match catalogLookup typeCode with
  | some info => info.hourlyCost
  | none => 2000

/-- The baseline (break-even-equivalent) fare of §4.2 steps 1–2. -/
def baselineFare (hourlyCost : ℚ) (cap : ℤ) (comfort durationHours : ℚ) : ℚ :=
  let operatingCostPerSeatPerHour := if cap > 0 then hourlyCost / (cap : ℚ) else 0
  let baselinePerHourPerSeat := max 15 (operatingCostPerSeatPerHour * 2) * (7/2)
  let comfortMult := 1 + (comfort - 1) * (1/2)
  baselinePerHourPerSeat * durationHours * comfortMult

/-- Steps 3–4 of §4.2 before the seasonal multiplier: the clamped demand
fraction in `[0.1, 1]` (nonpositive prices fall to the 0.1 floor). -/
def demandFraction (hourlyCost : ℚ) (cap : ℤ) (comfort durationHours : ℚ)
    (ticketPrice : ℤ) : ℚ :=
  let baseline := baselineFare hourlyCost cap comfort durationHours
  let comfortBoost := 1 + (comfort - 1) * (3/20)
  let priceFrac := if ticketPrice > 0 then baseline / (ticketPrice : ℚ) else 1/10
  min 1 (max (1/10) (priceFrac * comfortBoost))

/-- The boarded-passenger count computed inside `start_flight`: demand times
capacity, rounded, clamped to `[0, cap]`, then boosted by recent catering
(+10%) and cleaning (+5%) services, capped at `cap`. -/
def startFlightPassengers (now month : ℤ) (s : State) (ac : Aircraft)
    (ticketPrice : ℤ) (durationHours : ℚ) : ℤ :=
  let cap := flightCapacity ac
  let comfort := flightComfort ac
  let hourlyCost := flightHourlyCost ac.typeCode
  let demand := demandFraction hourlyCost cap comfort durationHours ticketPrice
    * getSeasonalDemandMultiplier month
  let paxRequested := cap
  let p0 := max 0 (min (pyRound ((paxRequested : ℚ) * demand)) cap)
  let services := getAircraftServices s ac.id
  let serviceWindow : ℤ := 24 * 3600
  let p1 := if services.catering > now - serviceWindow
    then min cap (pyInt ((p0 : ℚ) * (11/10))) else p0
  if services.cleaning > now - serviceWindow
    then min cap (pyInt ((p1 : ℚ) * (21/20))) else p1

/-- Source `start_flight(aircraft_id, route, ticket_price, duration_hours)`:
validates the aircraft exists, computes demand, and appends the new active
flight.  There is no grounded/preflight gate on this path. -/
def startFlight (now month : ℤ) (newFlightId aircraftId route : String)
    (ticketPrice : ℤ) (durationHours : ℚ) (s : State) : Except String State :=
  match findAircraftInFleet s.fleet aircraftId with
  | none => .error "Aircraft not found"
  | some ac =>
    let parts := strSplitOn '-' route
    let dest := if parts.length ≥ 2 then strUpper (strTrim (parts.getLastD "")) else "HOME"
    let origin := if parts.length ≥ 2 then strUpper (strTrim (parts.headD "")) else "HOME"
    let pilotOpt := s.pilots.find? (fun p => p.assignedAircraftId = some aircraftId)
    let pilotSkillBonus : ℚ := match pilotOpt with
      | some p => ((p.skillLevel - 1 : ℤ) : ℚ) * (1/2)
      | none => 0
    let cap := flightCapacity ac
    let comfort := flightComfort ac
    let hourlyCost := flightHourlyCost ac.typeCode
    let baseline := baselineFare hourlyCost cap comfort durationHours
    let flight : Flight := {
      flightId := newFlightId, aircraftId := aircraftId, route := route,
      dest := dest, origin := origin, durationHours := durationHours,
      passengers := startFlightPassengers now month s ac ticketPrice durationHours,
      ticketPrice := ticketPrice,
      etaTs := now + pyInt (durationHours * 3600),
      paxRequested := cap, baselinePrice := pyRound baseline,
      cabinComfort := comfort,
      pilotAssigned := pilotOpt.map (fun p => p.name),
      pilotSkillBonus := pilotSkillBonus,
      seasonalMultiplier := getSeasonalDemandMultiplier month }
    .ok { s with activeFlights := s.activeFlights ++ [flight] }

/-! ## Flight-quality answers and passenger feedback (§4.8) -/

/-- The optional questionnaire passed to `end_flight`. -/
structure QualityAnswers where
  touchdownFpm : Option ℚ
  departureTiming : Option ℚ
  customRepChange : Option ℚ
  deriving Repr, DecidableEq

/-- Python truthiness of `dict.get(key)` for a numeric optional value:
a missing key and a zero value are both falsy. -/
def truthy (o : Option ℚ) : Bool :=
  match o with
  | none => false
  | some q => decide (q ≠ 0)

/-- Source `_calculate_reputation_from_answers(answers)`. -/
def calculateReputationFromAnswers (answers : QualityAnswers) : ℚ :=
  let fromTouchdown : ℚ :=
    match answers.touchdownFpm with
    | none => 0
    | some fpm =>
      if fpm ≤ 200 then 2
      else if fpm ≤ 400 then 1
      else if fpm ≤ 600 then 0
      else if fpm ≤ 800 then -1
      else -2
  let fromDeparture : ℚ :=
    match answers.departureTiming with
    | none => 0
    | some minutes =>
      let absMinutes := |minutes|
      if absMinutes = 0 then 1
      else if absMinutes ≤ 5 then 1/2
      else if absMinutes ≤ 15 then 0
      else if absMinutes ≤ 30 then -1/2
      else if absMinutes ≤ 60 then -1
      else -2
  let fromCustom : ℚ :=
    match answers.customRepChange with
    | none => 0
    | some c => max (-5) (min 5 c)
  fromTouchdown + fromDeparture + fromCustom

/-- The `random.uniform` draws used by `generate_passenger_feedback`,
one per feedback band (excellent ∈ [0.1,0.3], good ∈ [0,0.1],
poor ∈ [-0.5,-0.1]). -/
structure FeedbackDraws where
  excellent : ℚ
  good : ℚ
  poor : ℚ
  deriving Repr, DecidableEq

/-- The feedback record; the randomly chosen display message is
presentation-only and not modelled. -/
structure PassengerFeedback where
  feedbackType : String
  reputationImpact : ℚ
  deriving Repr, DecidableEq

/-- Source `generate_passenger_feedback(flight_result)`. -/
def generatePassengerFeedback (draws : FeedbackDraws) (newReputation : ℚ)
    (paxBoarded paxRequested : ℤ) (cabinComfort : ℚ) : PassengerFeedback :=
  let loadFactor : ℚ :=
    if paxRequested > 0 then ((paxBoarded : ℚ) / (paxRequested : ℚ)) * 100 else 0
  if newReputation ≥ 80 ∧ loadFactor ≥ 80 ∧ cabinComfort ≥ 6/5 then
    { feedbackType := "excellent", reputationImpact := draws.excellent }
  else if newReputation ≥ 60 ∧ loadFactor ≥ 60 then
    { feedbackType := "good", reputationImpact := draws.good }
  else if newReputation < 40 ∨ loadFactor < 40 then
    { feedbackType := "poor", reputationImpact := draws.poor }
  else
    { feedbackType := "neutral", reputationImpact := 0 }

/-! ## Achievements (`check_and_award_achievements`) -/

/-- Source `get_achievement_definitions()`: ids paired with their predicate
evaluated on a state. -/
def achievementDefs (s : State) : List (String × Bool) :=
  [ ("first_flight", decide (s.completedFlights.length ≥ 1)),
    ("ten_flights", decide (s.completedFlights.length ≥ 10)),
    ("hundred_flights", decide (s.completedFlights.length ≥ 100)),
    ("first_aircraft", decide (s.fleet.length ≥ 1)),
    ("fleet_of_five", decide (s.fleet.length ≥ 5)),
    ("millionaire", decide (s.cash ≥ 1000000)),
    ("five_million", decide (s.cash ≥ 5000000)),
    ("reputation_50", decide (s.company.reputation ≥ 50)),
    ("reputation_80", decide (s.company.reputation ≥ 80)),
    ("first_pilot", decide (s.pilots.length ≥ 1)),
    ("pilot_team", decide (s.pilots.length ≥ 5)) ]

/-- The newly earned achievement ids of `check_and_award_achievements()`
evaluated against a state.  (Inside `end_flight` this function re-loads the
document from disk, so it sees the state as of the last save; its own save
is then overwritten by `end_flight`'s final save, leaving the persisted
achievements list unchanged on that path.) -/
def checkAndAwardAchievements (s : State) : List String :=
  ((achievementDefs s).filter (fun a => a.2 && !(s.achievements.contains a.1))).map Prod.fst

/-! ## Flight settlement (`end_flight`, `cancel_flight`) -/

/-- Empty `last_services` (all reads default to 0 / absent). -/
def emptyServices : Services :=
  { refueling := none, groundPower := 0, catering := 0, cleaning := 0 }

/-- The cost multiplier of §4.6 step 2: recent refueling −0.05, recent
ground power −0.02, then scaled by the global fuel price multiplier. -/
def endFlightCostMultiplier (now : ℤ) (services : Services) (fuelMult : ℚ) : ℚ :=
  let serviceWindow : ℤ := 24 * 3600
  let cm1 : ℚ := 1
  let cm2 := match services.refueling with
    | some ts => if ts > now - serviceWindow then cm1 - 1/20 else cm1
    | none => cm1
  let cm3 := if services.groundPower > now - serviceWindow then cm2 - 1/50 else cm2
  cm3 * fuelMult

/-- Post-flight bookkeeping on the aircraft: add the flight hours to the
legacy counter and all three check counters, and (for oil-tracked aircraft)
to both oil timers, consuming 0.11 quarts of oil per hour (floored at 0). -/
def addFlightHours (ac : Aircraft) (flightHours : ℚ) : Aircraft :=
  let ac1 := { ac with
    hoursSinceMaintenance := ac.hoursSinceMaintenance + flightHours
    hoursSinceACheck := ac.hoursSinceACheck + flightHours
    hoursSinceBCheck := ac.hoursSinceBCheck + flightHours
    hoursSinceCCheck := ac.hoursSinceCCheck + flightHours }
  { ac1 with oil := ac1.oil.map (fun o =>
      { o with
        hoursSinceRefill := o.hoursSinceRefill + flightHours
        hoursSinceChange := o.hoursSinceChange + flightHours
        level := max 0 (o.level - flightHours * (11/100)) }) }

/-- Outcome of one penalty-check stage of `end_flight`. -/
structure CheckOutcome where
  aircraft : Aircraft
  penalty : ℤ
  reasons : List String
  deriving Repr, DecidableEq

/-- The overdue-oil-change check of `end_flight` (50h interval; a fine of
`int(5000*(factor-1))` and a reliability hit of `0.01*(factor-1)` apply only
when the aircraft has snags or reliability below 0.9). -/
def oilChangeCheck (ac : Aircraft) : CheckOutcome :=
  match ac.oil with
  | none => { aircraft := ac, penalty := 0, reasons := [] }
  | some o =>
    let oilChangeInterval : ℚ := 50
    if o.hoursSinceChange > oilChangeInterval then
      let overdueFactor := o.hoursSinceChange / oilChangeInterval
      let hasSnags := ac.snags.length > 0
      if hasSnags ∨ ac.reliability < 9/10 then
        { aircraft := { ac with reliability := max 0 (ac.reliability - (1/100) * (overdueFactor - 1)) }
          penalty := pyInt (5000 * (overdueFactor - 1))
          reasons := ["Overdue oil change"] }
      else { aircraft := ac, penalty := 0, reasons := [] }
    else { aircraft := ac, penalty := 0, reasons := [] }

/-- Outcome of the A/B/C overdue checks of `end_flight`. -/
structure MaintenanceOutcome where
  aircraft : Aircraft
  penalty : ℤ
  warnings : List String
  groundedReasons : List String
  deriving Repr, DecidableEq

/-- The A/B/C overdue-maintenance checks of `end_flight` (source lines
2774–2808), applied to the post-increment counters in order A, B, C; each
overdue stage adds `int(coeff*(factor-1))` to the penalty and lowers
reliability by `rate*(factor-1)` (floored at 0); a C factor above 1.2
grounds the aircraft. -/
def maintenanceChecks (ac0 : Aircraft) : MaintenanceOutcome :=
  let aFactor := ac0.hoursSinceACheck / maintenanceIntervalA
  let aHit := ac0.hoursSinceACheck ≥ maintenanceIntervalA ∧ aFactor > 6/5
  let ac1 := if aHit then
      { ac0 with reliability := max 0 (ac0.reliability - (1/50) * (aFactor - 1)) }
    else ac0
  let penA : ℤ := if aHit then pyInt (5000 * (aFactor - 1)) else 0
  let warnA : List String := if aHit then ["A Check overdue"] else []
  let bFactor := ac1.hoursSinceBCheck / maintenanceIntervalB
  let bHit := ac1.hoursSinceBCheck ≥ maintenanceIntervalB ∧ bFactor > 11/10
  let ac2 := if bHit then
      { ac1 with reliability := max 0 (ac1.reliability - (1/20) * (bFactor - 1)) }
    else ac1
  let penB : ℤ := if bHit then pyInt (15000 * (bFactor - 1)) else 0
  let warnB : List String := if bHit then ["B Check overdue"] else []
  let cFactor := ac2.hoursSinceCCheck / maintenanceIntervalC
  let cHit := ac2.hoursSinceCCheck ≥ maintenanceIntervalC ∧ cFactor > 21/20
  let ac3 := if cHit then
      { ac2 with reliability := max 0 (ac2.reliability - (3/20) * (cFactor - 1)) }
    else ac2
  let penC : ℤ := if cHit then pyInt (50000 * (cFactor - 1)) else 0
  let warnC : List String := if cHit then ["C Check overdue - CRITICAL"] else []
  let ac4 := if cHit ∧ cFactor > 6/5 then { ac3 with grounded := true } else ac3
  { aircraft := ac4
    penalty := penA + penB + penC
    warnings := warnA ++ warnB ++ warnC
    groundedReasons := if cHit ∧ cFactor > 6/5 then
      ["Aircraft grounded: C Check critically overdue"] else [] }

/-- The legacy `hours_since_maintenance` check of `end_flight`: past 1.5× of
`maintenance_due_hours` reliability drops by `0.1*(factor-1.5)` and the
aircraft is grounded when reliability falls below 0.5. -/
def legacyMaintenanceCheck (ac : Aircraft) : Aircraft :=
  if ac.hoursSinceMaintenance > ac.maintenanceDueHours then
    let overdueFactor := ac.hoursSinceMaintenance / ac.maintenanceDueHours
    if overdueFactor > 3/2 then
      let ac1 := { ac with reliability := max 0 (ac.reliability - (1/10) * (overdueFactor - 3/2)) }
      if ac1.reliability < 1/2 then { ac1 with grounded := true } else ac1
    else ac
  else ac

/-- The result record returned by `end_flight`.  On the aircraft-missing
path the source's dict omits the pax/baseline/comfort/feedback keys; here
they carry the flight's values (never read by that path's consumers). -/
structure EndFlightResult where
  revenue : ℤ
  cost : ℤ
  penalty : ℤ
  reputationBonus : ℤ
  net : ℤ
  reasons : List String
  location : String
  reliability : Option ℚ
  grounded : Bool
  hourlyCost : ℚ
  durationHours : ℚ
  paxBoarded : ℤ
  paxRequested : ℤ
  baselinePrice : ℤ
  cabinComfort : ℚ
  reputationChange : ℚ
  oldReputation : ℚ
  newReputation : ℚ
  pilotAssigned : Option String
  passengerFeedback : Option PassengerFeedback
  newAchievements : List String
  deriving Repr, DecidableEq

/-- The `flight_quality_answers and (touchdown or departure)` guard of
`end_flight`, with Python truthiness. -/
def answeredQuality (answers : Option QualityAnswers) : Option QualityAnswers :=
  match answers with
  | some a => if truthy a.touchdownFpm || truthy a.departureTiming then some a else none
  | none => none

/-- The `end_flight` path taken when the flight's aircraft is no longer in
the fleet: only cash and reputation settle (penalty 0, pilot skill bonus
added to the questionnaire delta, no completed-flight record, no ledger
entry). -/
def endFlightNoAircraft (now : ℤ) (answers : Option QualityAnswers)
    (f : Flight) (rest : List Flight) (s : State) : EndFlightResult × State :=
  let revenue := f.passengers * f.ticketPrice
  let hourlyCost : ℚ := 2000
  let costMultiplier := endFlightCostMultiplier now emptyServices s.fuelPriceMultiplier
  let cost := pyInt (hourlyCost * f.durationHours * costMultiplier)
  let oldReputation := s.company.reputation
  let (reputationChange, newReputation, reputationBonus, s1) :=
    match answeredQuality answers with
    | some a =>
      let rc := calculateReputationFromAnswers a + f.pilotSkillBonus
      let (nr, s1) := updateReputation rc s
      (rc, nr, calculateReputationBonus nr revenue, s1)
    | none => ((0 : ℚ), oldReputation, (0 : ℤ), s)
  let net := (revenue - cost + reputationBonus) * 3
  let s2 := { s1 with cash := s1.cash + net, activeFlights := rest }
  ({ revenue := revenue, cost := cost, penalty := 0, reputationBonus := reputationBonus,
     net := net, reasons := [], location := "UNKNOWN", reliability := none,
     grounded := false, hourlyCost := hourlyCost, durationHours := f.durationHours,
     paxBoarded := f.passengers, paxRequested := f.paxRequested,
     baselinePrice := f.baselinePrice, cabinComfort := f.cabinComfort,
     reputationChange := reputationChange, oldReputation := oldReputation,
     newReputation := newReputation, pilotAssigned := f.pilotAssigned,
     passengerFeedback := none, newAchievements := [] }, s2)

/-- The questionnaire-driven reputation step of `end_flight` (main path):
returns `(reputation_change, new_reputation, state)`; no pilot skill bonus
is added on this path. -/
def endFlightAnswersPhase (answers : Option QualityAnswers) (s : State) :
    ℚ × ℚ × State :=
  match answeredQuality answers with
  | some a =>
    let rc := calculateReputationFromAnswers a
    let p := updateReputation rc s
    (rc, p.1, p.2)
  | none => (0, s.company.reputation, s)

/-- The feedback fold-back step of `end_flight`: a nonzero feedback impact
is applied through `update_reputation` and added to the reputation change. -/
def endFlightFeedbackPhase (feedback : PassengerFeedback)
    (rc nr : ℚ) (s1 : State) : ℚ × ℚ × State :=
  if feedback.reputationImpact ≠ 0 then
    let p := updateReputation feedback.reputationImpact s1
    (rc + feedback.reputationImpact, p.1, p.2)
  else (rc, nr, s1)

/-- The main `end_flight` path (aircraft present): §4.6 settlement.
Ordering matters and follows the source: revenue, cost (with service
discounts and fuel multiplier), hours/oil bookkeeping, oil-change fine,
A/B/C checks, legacy check, relocation, questionnaire reputation delta,
passenger feedback folded back into reputation, reputation bonus, then
`net = (revenue - cost - penalty + bonus) * 3` credited to cash. -/
def endFlightWithAircraft (now : ℤ) (draws : FeedbackDraws)
    (answers : Option QualityAnswers) (f : Flight) (rest : List Flight)
    (ac : Aircraft) (s : State) : EndFlightResult × State :=
  let revenue := f.passengers * f.ticketPrice
  let hourlyCost := flightHourlyCost ac.typeCode
  let flightHours := f.durationHours
  let services := getAircraftServices s f.aircraftId
  let costMultiplier := endFlightCostMultiplier now services s.fuelPriceMultiplier
  let cost := pyInt (hourlyCost * flightHours * costMultiplier)
  let ac1 := addFlightHours ac flightHours
  let oilOut := oilChangeCheck ac1
  let maintOut := maintenanceChecks oilOut.aircraft
  let penalty := oilOut.penalty + maintOut.penalty
  let ac4 := legacyMaintenanceCheck maintOut.aircraft
  let dest := if f.dest ≠ "" then f.dest else ac.location
  let ac5 := { ac4 with location := dest }
  let parkingReasons : List String :=
    if ¬ hasOwnedParking s dest then ["No owned parking at destination; overnight fee may apply"]
    else []
  let oldReputation := s.company.reputation
  let phase1 := endFlightAnswersPhase answers s
  let feedback := generatePassengerFeedback draws phase1.2.1 f.passengers
    f.paxRequested f.cabinComfort
  let phase2 := endFlightFeedbackPhase feedback phase1.1 phase1.2.1 phase1.2.2
  let reputationChange := phase2.1
  let newReputation := phase2.2.1
  let s2 := phase2.2.2
  let reputationBonus := calculateReputationBonus newReputation revenue
  let net := (revenue - cost - penalty + reputationBonus) * 3
  let penaltyReasons := oilOut.reasons ++ maintOut.groundedReasons ++ maintOut.warnings
    ++ parkingReasons
  let completed : CompletedFlight := {
    timestamp := now
    route := f.route
    revenue := revenue
    cost := cost
    passengers := f.passengers
    capacity := f.paxRequested }
  let completedList := s2.completedFlights ++ [completed]
  let newAchievements := checkAndAwardAchievements s
  let s3 := { s2 with
    cash := s2.cash + net
    activeFlights := rest
    fleet := updateFirstAircraft s2.fleet f.aircraftId (fun _ => ac5)
    completedFlights := if completedList.length > 1000 then
      completedList.drop (completedList.length - 1000) else completedList }
  let s4 := addLedger s3 now "flight" net "flight net"
  ({ revenue := revenue, cost := cost, penalty := penalty,
     reputationBonus := reputationBonus, net := net, reasons := penaltyReasons,
     location := dest, reliability := some ac5.reliability, grounded := ac5.grounded,
     hourlyCost := hourlyCost, durationHours := flightHours,
     paxBoarded := f.passengers, paxRequested := f.paxRequested,
     baselinePrice := f.baselinePrice, cabinComfort := f.cabinComfort,
     reputationChange := reputationChange, oldReputation := oldReputation,
     newReputation := newReputation, pilotAssigned := f.pilotAssigned,
     passengerFeedback := some feedback, newAchievements := newAchievements }, s4)

/-- Source `end_flight(flight_id, flight_quality_answers)`. -/
def endFlight (now : ℤ) (draws : FeedbackDraws) (answers : Option QualityAnswers)
    (flightId : String) (s : State) : Except String (EndFlightResult × State) :=
  match popFlight s.activeFlights flightId with
  | none => .error "Flight not found"
  | some (f, rest) =>
    match findAircraftInFleet s.fleet f.aircraftId with
    | none => .ok (endFlightNoAircraft now answers f rest s)
    | some ac => .ok (endFlightWithAircraft now draws answers f rest ac s)

/-- The result record returned by `cancel_flight`. -/
structure CancelFlightResult where
  flightId : String
  aircraftId : String
  route : String
  passengers : ℤ
  refundCost : ℤ
  reputationPenalty : ℚ
  oldReputation : ℚ
  newReputation : ℚ
  deriving Repr, DecidableEq

/-- Source `cancel_flight(flight_id)`: pop the flight, charge a 10% refund-
processing fee with no funds check, apply −0.5 reputation per passenger. -/
def cancelFlight (now : ℤ) (flightId : String) (s : State) :
    Except String (CancelFlightResult × State) :=
  match popFlight s.activeFlights flightId with
  | none => .error "Flight not found"
  | some (f, rest) =>
    let passengers := f.passengers
    let refundCost := pyInt (((passengers * f.ticketPrice : ℤ) : ℚ) * (1/10))
    let reputationPenalty := -(1/2 : ℚ) * (passengers : ℚ)
    let oldReputation := s.company.reputation
    let (newReputation, s1) := updateReputation reputationPenalty s
    let s2 := { s1 with cash := s1.cash - refundCost, activeFlights := rest }
    let s3 := addLedger s2 now "flight_cancellation" (-refundCost) "Cancellation refunds"
    .ok ({ flightId := flightId, aircraftId := f.aircraftId, route := f.route,
           passengers := passengers, refundCost := refundCost,
           reputationPenalty := reputationPenalty, oldReputation := oldReputation,
           newReputation := newReputation }, s3)

/-! ## Daily tick (`run_daily_tick`) -/

/-- The cabin capacity used by the daily parking check (layout seat total,
falling back to the catalog capacity when zero). -/
def tickCapacity (ac : Aircraft) : ℤ :=
  let capacity := if ac.cabinLayout ≠ [] then calculateCabinTotalSeats ac.cabinLayout else 0
  if capacity = 0 then
    match catalogLookup ac.typeCode with
    | some info => info.capacity
    | none => 0
  else capacity

/-- The per-aircraft parking-fee loop of `run_daily_tick`.  `smallFee`
supplies the `random.randint(15, 30)` nightly fee draws in order; returns
the updated fleet, state, the number of penalties applied, and the number
of draws consumed. -/
def processParkingFees (now today : ℤ) (smallFee : ℕ → ℤ) :
    List Aircraft → ℕ → ℤ → State → List Aircraft × State × ℤ
  | [], _, penalties, s => ([], s, penalties)
  | ac :: rest, idx, penalties, s =>
    let loc := strUpper (if ac.location = "" then "HOME" else ac.location)
    if ac.lastPenaltyDay = today then
      let (rest2, s2, pen2) := processParkingFees now today smallFee rest idx penalties s
      (ac :: rest2, s2, pen2)
    else if ¬ hasOwnedParking s loc then
      if tickCapacity ac > 19 then
        let s1 := addLedger { s with cash := s.cash - 5000 } now "parking_fine"
          (-5000) "Parking violation"
        let (rest2, s2, pen2) := processParkingFees now today smallFee rest idx (penalties + 1) s1
        ({ ac with lastPenaltyDay := today } :: rest2, s2, pen2)
      else
        let amount := smallFee idx
        let s1 := addLedger { s with cash := s.cash - amount } now "parking_fee"
          (-amount) "Overnight parking fee"
        let (rest2, s2, pen2) := processParkingFees now today smallFee rest (idx + 1) (penalties + 1) s1
        ({ ac with lastPenaltyDay := today } :: rest2, s2, pen2)
    else
      let (rest2, s2, pen2) := processParkingFees now today smallFee rest idx penalties s
      (ac :: rest2, s2, pen2)

/-- The lease-payment loop of `run_daily_tick`: expired leases are dropped;
a due month's payment is deducted only when cash suffices (silently skipped
otherwise). -/
def processLeases (now today : ℤ) : List Lease → State → List Lease × State
  | [], s => ([], s)
  | lease :: rest, s =>
    let daysSinceStart := max 0 (today - lease.startDate)
    let monthsElapsed := daysSinceStart.fdiv 30
    let totalMonths := monthsElapsed + 1
    if totalMonths > lease.termMonths then processLeases now today rest s
    else
      let (lease1, s1) :=
        if lease.lastPaymentMonth < monthsElapsed then
          if s.cash ≥ lease.monthlyPayment then
            ({ lease with lastPaymentMonth := monthsElapsed },
             addLedger { s with cash := s.cash - lease.monthlyPayment } now
               "lease_payment" (-lease.monthlyPayment) "Lease payment")
          else (lease, s)
        else (lease, s)
      let (rest2, s2) := processLeases now today rest s1
      (lease1 :: rest2, s2)

/-- The loan-payment loop of `run_daily_tick`: a due payment is deducted
when cash suffices; otherwise a 5% late fee is added to the balance (cash
reduced by the fee but floored at 0); paid-off loans are dropped. -/
def processLoans (now today : ℤ) : List Loan → State → List Loan × State
  | [], s => ([], s)
  | loan :: rest, s =>
    let daysSinceStart := max 0 (today - loan.startDate)
    let monthsElapsed := daysSinceStart.fdiv 30
    let remainingBalance := loan.remainingBalance
    let (loan1, s1) :=
      if loan.lastPaymentMonth < monthsElapsed ∧ remainingBalance > 0 then
        let paymentAmount := min loan.monthlyPayment remainingBalance
        if s.cash ≥ paymentAmount then
          ({ loan with
             remainingBalance := remainingBalance - paymentAmount
             lastPaymentMonth := monthsElapsed },
           addLedger { s with cash := s.cash - paymentAmount } now "loan_payment"
             (-paymentAmount) "Automatic loan payment")
        else
          let latePenalty := pyInt ((paymentAmount : ℚ) * (1/20))
          ({ loan with remainingBalance := remainingBalance + latePenalty },
           addLedger { s with cash := max 0 (s.cash - latePenalty) } now
             "loan_penalty" (-latePenalty) "Late payment penalty")
      else (loan, s)
    let (keep, s1b) :=
      if loan1.remainingBalance > 0 then (some loan1, s1)
      else ((none : Option Loan), addLedger s1 now "loan" 0 "Loan fully paid off")
    let (rest2, s2) := processLoans now today rest s1b
    ((match keep with | some l => l :: rest2 | none => rest2), s2)

/-- Source `run_daily_tick()`: parking fees/fines, lease payments and loan payments
for the current day; returns the number of parking penalties applied.
(`update_fuel_prices()` operates on a separately loaded document whose save
is overwritten by this function's final save, so the persisted fuel
multiplier is unchanged and the random-walk step is dropped here.) -/
def runDailyTick (now today : ℤ) (smallFee : ℕ → ℤ) (s0 : State) : ℤ × State :=
  let s1 := { s0 with lastDailyTickDay := today }
  let (fleet2, s2, penalties) := processParkingFees now today smallFee s1.fleet 0 0 s1
  let s3 := { s2 with fleet := fleet2 }
  let (leases2, s4) := processLeases now today s3.leases s3
  let s5 := { s4 with leases := leases2 }
  let (loans2, s6) := processLoans now today s5.loans s5
  (penalties, { s6 with loans := loans2 })

/-! ## Arithmetic helper lemmas -/

theorem pyInt_nonneg {q : ℚ} (h : 0 ≤ q) : 0 ≤ pyInt q := by
  unfold pyInt
  rw [if_neg (not_lt.mpr h)]
  exact Int.le_floor.mpr (by simpa using h)

theorem pyInt_mono {a b : ℚ} (h : a ≤ b) : pyInt a ≤ pyInt b := by
  unfold pyInt
  split_ifs with ha hb hb
  · exact Int.ceil_le_ceil h
  · calc ⌈a⌉ ≤ 0 := Int.ceil_le.mpr (by exact_mod_cast le_of_lt ha)
      _ ≤ ⌊b⌋ := Int.le_floor.mpr (by simpa using not_lt.mp hb)
  · exact absurd (lt_of_le_of_lt h hb) (not_lt.mpr (not_lt.mp ha))
  · exact Int.floor_le_floor h

theorem le_pyRound (q : ℚ) : ⌊q⌋ ≤ pyRound q := by
  unfold pyRound
  split_ifs <;> omega

theorem pyRound_le (q : ℚ) : pyRound q ≤ ⌊q⌋ + 1 := by
  unfold pyRound
  split_ifs <;> omega

theorem pyRound_mono {a b : ℚ} (h : a ≤ b) : pyRound a ≤ pyRound b := by
  rcases lt_or_eq_of_le (Int.floor_le_floor h : ⌊a⌋ ≤ ⌊b⌋) with hf | hf
  · calc pyRound a ≤ ⌊a⌋ + 1 := pyRound_le a
      _ ≤ ⌊b⌋ := by omega
      _ ≤ pyRound b := le_pyRound b
  · have hfr : a - (⌊a⌋ : ℚ) ≤ b - (⌊b⌋ : ℚ) := by
      rw [← hf]; linarith
    unfold pyRound
    rw [← hf]
    split_ifs <;> first | omega | linarith

theorem pyRound_nonneg {q : ℚ} (h : 0 ≤ q) : 0 ≤ pyRound q := by
  have := le_pyRound q
  have h0 : (0 : ℤ) ≤ ⌊q⌋ := Int.le_floor.mpr (by simpa using h)
  omega

/-! ## State helper lemmas -/

theorem findAircraft_update (fleet : List Aircraft) (aid : String)
    (g : Aircraft → Aircraft) (ac : Aircraft)
    (h : findAircraftInFleet fleet aid = some ac) (hid : (g ac).id = ac.id) :
    findAircraftInFleet (updateFirstAircraft fleet aid g) aid = some (g ac) := by
  induction fleet with
  | nil => simp [findAircraftInFleet] at h
  | cons a rest ih =>
    by_cases ha : a.id = aid
    · have h' : a = ac := by
        rw [findAircraftInFleet, List.find?_cons_of_pos _ (by simpa using ha)] at h
        exact Option.some.inj h
      subst h'
      rw [findAircraftInFleet]
      simp only [updateFirstAircraft]
      rw [if_pos ha]
      exact List.find?_cons_of_pos _ (by simp [hid, ha])
    · rw [findAircraftInFleet, List.find?_cons_of_neg _ (by simpa using ha)] at h
      rw [findAircraftInFleet]
      simp only [updateFirstAircraft]
      rw [if_neg ha]
      rw [List.find?_cons_of_neg _ (by simpa using ha)]
      exact ih h

theorem updateReputation_cash (c : ℚ) (s : State) :
    (updateReputation c s).2.cash = s.cash := rfl

theorem addLedger_cash (s : State) (ts : ℤ) (cat : String) (amt : ℤ) (note : String) :
    (addLedger s ts cat amt note).cash = s.cash := rfl

/-- Every catalog entry has a positive seat capacity. -/
theorem catalog_capacity_pos : ∀ e ∈ aircraftCatalog, 1 ≤ e.capacity := by decide

theorem catalogLookup_capacity_pos (t : String) (e : CatalogEntry)
    (h : catalogLookup t = some e) : 1 ≤ e.capacity :=
  catalog_capacity_pos e (List.mem_of_find?_eq_some h)

theorem flightCapacity_pos (ac : Aircraft) : 1 ≤ flightCapacity ac := by
  unfold flightCapacity
  dsimp only
  by_cases h1 : ac.cabinLayout ≠ []
  · rw [if_pos h1]
    by_cases h2 : calculateCabinTotalSeats ac.cabinLayout > 0
    · rw [if_pos h2]; omega
    · rw [if_neg h2]
      rcases hl : catalogLookup ac.typeCode with _ | e
      · simp [hl]
      · simp only [hl]
        exact catalogLookup_capacity_pos _ _ hl
  · rw [if_neg h1]
    rw [if_neg (by norm_num : ¬((0 : ℤ) > 0))]
    rcases hl : catalogLookup ac.typeCode with _ | e
    · simp [hl]
    · simp only [hl]
      exact catalogLookup_capacity_pos _ _ hl

theorem seasonal_nonneg (month : ℤ) : 0 ≤ getSeasonalDemandMultiplier month := by
  unfold getSeasonalDemandMultiplier
  split_ifs <;> norm_num

/-! ## Concrete fixtures for witnesses and counterexamples -/

/-- A small state builder used by the concrete instances below. -/
def mkState (cash : ℤ) (fleet : List Aircraft) (flights : List Flight) : State where
  cash := cash
  company := { name := "Air", reputation := 50 }
  fleet := fleet
  loans := []
  leases := []
  activeFlights := flights
  completedFlights := []
  ledger := []
  parking := []
  pilots := []
  achievements := []
  fuelPriceMultiplier := 1
  lastDailyTickDay := 0

/-- A partially depleted oil record for an oil-tracked aircraft. -/
def fixOil : OilState where
  level := 10
  capacity := 24
  minimum := 7
  hoursSinceRefill := 3
  hoursSinceChange := 7

/-- A Cessna 337 (oil-tracked catalog type). -/
def fixC337 : Aircraft where
  id := "AC1"
  typeCode := "C337"
  name := "Skymaster"
  purchasePrice := 180000
  totalHours := 0
  hoursSinceACheck := 0
  hoursSinceBCheck := 0
  hoursSinceCCheck := 0
  hoursSinceMaintenance := 0
  maintenanceDueHours := 300
  location := "HOME"
  reliability := 1
  grounded := false
  cabinLayout := []
  snags := []
  oil := some fixOil
  lastServices := emptyServices
  lastPenaltyDay := 0

/-- An A320 (airliner, no oil tracking). -/
def fixA320 : Aircraft where
  id := "AC1"
  typeCode := "A320"
  name := "Bus"
  purchasePrice := 51000000
  totalHours := 0
  hoursSinceACheck := 0
  hoursSinceBCheck := 0
  hoursSinceCCheck := 0
  hoursSinceMaintenance := 0
  maintenanceDueHours := 300
  location := "HOME"
  reliability := 1
  grounded := false
  cabinLayout := []
  snags := []
  oil := none
  lastServices := emptyServices
  lastPenaltyDay := 0

/-- An active flight on `fixA320`. -/
def fixFlight : Flight where
  flightId := "F1"
  aircraftId := "AC1"
  route := "HOME-JFK"
  dest := "JFK"
  origin := "HOME"
  durationHours := 2
  passengers := 100
  ticketPrice := 150
  etaTs := 0
  paxRequested := 150
  baselinePrice := 105
  cabinComfort := 1
  pilotAssigned := none
  pilotSkillBonus := 0
  seasonalMultiplier := 1

/-! ## Claim theorems -/

/-- C9: `update_reputation(delta, state)` stores `company.reputation` as the
current value plus delta clamped into `[0, 100]`, returns exactly that
value, and the result always lies in `[0, 100]`, for every state and every
delta (extreme values included). -/
theorem updateReputation_clamps (delta : ℚ) (s : State) :
    (updateReputation delta s).2.company.reputation
        = max 0 (min 100 (s.company.reputation + delta))
      ∧ (updateReputation delta s).1 = max 0 (min 100 (s.company.reputation + delta))
      ∧ 0 ≤ (updateReputation delta s).1
      ∧ (updateReputation delta s).1 ≤ 100 := by
  refine ⟨rfl, rfl, le_max_left _ _, ?_⟩
  exact max_le (by norm_num) (min_le_left _ _)

/-- C4: for every fleet aircraft and state with cash covering the $800,000
C-check cost, `perform_maintenance_level(·, "C")` succeeds and the updated
aircraft has `grounded = false`, `hours_since_c_check = 0`, empty `snags`,
reliability increased by 0.20 capped at 1.0, oil (when tracked) refilled to
capacity with both oil timers reset, and the A/B counters untouched. -/
theorem performMaintenanceC_spec (now : ℤ) (aid : String) (s : State) (ac : Aircraft)
    (hfind : findAircraftInFleet s.fleet aid = some ac)
    (hcash : 800000 ≤ s.cash) :
    ∃ s' ac', performMaintenanceLevel now aid "C" s = .ok s'
      ∧ findAircraftInFleet s'.fleet aid = some ac'
      ∧ ac'.grounded = false
      ∧ ac'.hoursSinceCCheck = 0
      ∧ ac'.snags = []
      ∧ ac'.reliability = min 1 (ac.reliability + 1/5)
      ∧ ac'.oil = ac.oil.map (fun o =>
          { o with level := o.capacity, hoursSinceRefill := 0, hoursSinceChange := 0 })
      ∧ ac'.hoursSinceACheck = ac.hoursSinceACheck
      ∧ ac'.hoursSinceBCheck = ac.hoursSinceBCheck := by
  unfold performMaintenanceLevel
  rw [hfind]
  dsimp only
  rw [if_neg (by decide : ¬(strUpper "C" = "A")),
      if_neg (by decide : ¬(strUpper "C" = "B")),
      if_pos (by decide : (strUpper "C" = "C"))]
  dsimp only
  rw [if_neg (by omega : ¬((800000 : ℤ) > s.cash))]
  exact ⟨_, _, rfl, findAircraft_update _ _ _ _ hfind rfl, rfl, rfl, rfl, rfl, rfl, rfl, rfl⟩

/-- Witness for C4 at a concrete oil-tracked aircraft and $5,000,000 cash. -/
theorem performMaintenanceC_spec_witness :
    findAircraftInFleet (mkState 5000000 [fixC337] []).fleet "AC1" = some fixC337
    ∧ 800000 ≤ (mkState 5000000 [fixC337] []).cash
    ∧ (∃ s' ac', performMaintenanceLevel 0 "AC1" "C" (mkState 5000000 [fixC337] []) = .ok s'
        ∧ findAircraftInFleet s'.fleet "AC1" = some ac'
        ∧ ac'.grounded = false
        ∧ ac'.hoursSinceCCheck = 0
        ∧ ac'.snags = []
        ∧ ac'.reliability = min 1 (fixC337.reliability + 1/5)
        ∧ ac'.oil = fixC337.oil.map (fun o =>
            { o with level := o.capacity, hoursSinceRefill := 0, hoursSinceChange := 0 })
        ∧ ac'.hoursSinceACheck = fixC337.hoursSinceACheck
        ∧ ac'.hoursSinceBCheck = fixC337.hoursSinceBCheck) :=
  ⟨rfl, by decide,
    performMaintenanceC_spec 0 "AC1" (mkState 5000000 [fixC337] []) fixC337 rfl (by decide)⟩

/-- A fully topped-up oil record with a nonzero refill timer. -/
def fixOilFull : OilState where
  level := 24
  capacity := 24
  minimum := 7
  hoursSinceRefill := 10
  hoursSinceChange := 20

/-- Source `fixC337` with a full oil tank. -/
def fixC337Full : Aircraft := { fixC337 with oil := some fixOilFull }

/-- C8 counterexample: on an oil-tracked aircraft whose tank is already
full, `refill_aircraft_oil` returns early without saving, so
`hours_since_oil_refill` stays at 10 instead of being set to 0 as the claim
states. -/
theorem refillAircraftOil_full_cex :
    refillAircraftOil 0 "AC1" (mkState 100000 [fixC337Full] [])
        = Except.ok (mkState 100000 [fixC337Full] [])
    ∧ (findAircraftInFleet (mkState 100000 [fixC337Full] []).fleet "AC1").map
        (fun a => a.oil.map OilState.hoursSinceRefill) = some (some 10) := by
  constructor
  · simp only [refillAircraftOil, findAircraftInFleet, mkState, fixC337Full, fixC337,
      fixOilFull, List.find?]
    norm_num
  · rfl

/-- C8 (amended): for every oil-tracked fleet aircraft,
`refill_aircraft_oil` — when the tank is strictly below capacity and cash
covers the $50/quart cost — sets `oil_level` to `oil_capacity` and resets
`hours_since_oil_refill` to 0 while never touching `hours_since_oil_change`;
when the tank is already full it is a saveless no-op (the refill timer is
NOT reset); `change_aircraft_oil` — when cash covers the $100/quart cost —
sets `oil_level` to `oil_capacity` and resets both timers; and for every
aircraft without oil tracking both operations raise an error. -/
theorem oilOps_spec (now : ℤ) (aid : String) (s : State) (ac : Aircraft)
    (hfind : findAircraftInFleet s.fleet aid = some ac) :
    (∀ o, ac.oil = some o → o.level < o.capacity →
        pyInt ((o.capacity - o.level) * 50) ≤ s.cash →
        ∃ s' ac', refillAircraftOil now aid s = .ok s'
          ∧ findAircraftInFleet s'.fleet aid = some ac'
          ∧ ac'.oil = some { o with level := o.capacity, hoursSinceRefill := 0 })
    ∧ (∀ o, ac.oil = some o → o.capacity ≤ o.level →
        refillAircraftOil now aid s = .ok s)
    ∧ (∀ o, ac.oil = some o → pyInt (o.capacity * 100) ≤ s.cash →
        ∃ s' ac', changeAircraftOil now aid s = .ok s'
          ∧ findAircraftInFleet s'.fleet aid = some ac'
          ∧ ac'.oil = some { o with level := o.capacity, hoursSinceRefill := 0, hoursSinceChange := 0 })
    ∧ (ac.oil = none →
        refillAircraftOil now aid s
          = .error "This aircraft type does not require manual oil refills"
        ∧ changeAircraftOil now aid s
          = .error "This aircraft type does not require manual oil changes") := by
  refine ⟨?_, ?_, ?_, ?_⟩
  · intro o ho hlt hcost
    unfold refillAircraftOil
    rw [hfind]
    dsimp only
    rw [ho]
    dsimp only
    rw [if_neg (by linarith : ¬(o.capacity - o.level ≤ 0))]
    rw [if_neg (by omega : ¬(pyInt ((o.capacity - o.level) * 50) > s.cash))]
    refine ⟨_, _, rfl, findAircraft_update _ _ _ _ hfind rfl, ?_⟩
    simp [ho]
  · intro o ho hge
    unfold refillAircraftOil
    rw [hfind]
    dsimp only
    rw [ho]
    dsimp only
    rw [if_pos (by linarith : o.capacity - o.level ≤ 0)]
  · intro o ho hcost
    unfold changeAircraftOil
    rw [hfind]
    dsimp only
    rw [ho]
    dsimp only
    rw [if_neg (by omega : ¬(pyInt (o.capacity * 100) > s.cash))]
    refine ⟨_, _, rfl, findAircraft_update _ _ _ _ hfind rfl, ?_⟩
    simp [ho]
  · intro ho
    constructor
    · unfold refillAircraftOil
      rw [hfind]
      dsimp only
      rw [ho]
    · unfold changeAircraftOil
      rw [hfind]
      dsimp only
      rw [ho]

/-- Witness for C8 at a concrete partially depleted oil-tracked aircraft. -/
theorem oilOps_spec_witness :
    findAircraftInFleet (mkState 100000 [fixC337] []).fleet "AC1" = some fixC337
    ∧ (∃ s' ac', refillAircraftOil 0 "AC1" (mkState 100000 [fixC337] []) = .ok s'
        ∧ findAircraftInFleet s'.fleet "AC1" = some ac'
        ∧ ac'.oil = some { fixOil with level := fixOil.capacity, hoursSinceRefill := 0 })
    ∧ (∃ s' ac', changeAircraftOil 0 "AC1" (mkState 100000 [fixC337] []) = .ok s'
        ∧ findAircraftInFleet s'.fleet "AC1" = some ac'
        ∧ ac'.oil = some { fixOil with level := fixOil.capacity, hoursSinceRefill := 0, hoursSinceChange := 0 }) :=
  ⟨rfl,
    (oilOps_spec 0 "AC1" (mkState 100000 [fixC337] []) fixC337 rfl).1 fixOil rfl
      (by norm_num [fixOil]) (by norm_num [pyInt, fixOil, mkState]),
    (oilOps_spec 0 "AC1" (mkState 100000 [fixC337] []) fixC337 rfl).2.2.1 fixOil rfl
      (by norm_num [pyInt, fixOil, mkState])⟩

theorem buildDefaultRows_length (n : ℕ) (i spr rem : ℤ) :
    (buildDefaultRows n i spr rem).length ≤ n := by
  induction n generalizing i rem with
  | zero => simp [buildDefaultRows]
  | succ k ih =>
    unfold buildDefaultRows
    split_ifs
    · simp
    · simpa using ih (i + 1) (rem - min spr rem)

theorem buildDefaultRows_seats_le (n : ℕ) (i spr rem : ℤ) :
    ∀ r ∈ buildDefaultRows n i spr rem, r.seats ≤ spr := by
  induction n generalizing i rem with
  | zero => simp [buildDefaultRows]
  | succ k ih =>
    unfold buildDefaultRows
    split_ifs
    · simp
    · intro r hr
      rcases List.mem_cons.mp hr with rfl | hr
      · exact min_le_left _ _
      · exact ih _ _ r hr

theorem buildDefaultRows_sum (n : ℕ) (i spr rem : ℤ) (hspr : 1 ≤ spr)
    (hrem : 0 ≤ rem) (hle : rem ≤ spr * n) :
    ((buildDefaultRows n i spr rem).map (fun r => r.seats)).sum = rem := by
  induction n generalizing i rem with
  | zero =>
    simp only [buildDefaultRows, List.map_nil, List.sum_nil]
    simp only [Nat.cast_zero, mul_zero] at hle
    omega
  | succ k ih =>
    unfold buildDefaultRows
    split_ifs with h
    · simp only [List.map_nil, List.sum_nil]
      omega
    · simp only [List.map_cons, List.sum_cons]
      have hcast : spr * ((k : ℤ) + 1) = spr * (k : ℤ) + spr := by ring
      rw [Nat.cast_succ] at hle
      have h1 : 0 ≤ rem - min spr rem := by
        rcases le_total spr rem with h2 | h2
        · rw [min_eq_left h2]; omega
        · rw [min_eq_right h2]; omega
      have h2 : rem - min spr rem ≤ spr * (k : ℤ) := by
        rcases le_total spr rem with h3 | h3
        · rw [min_eq_left h3]; linarith [hcast]
        · rw [min_eq_right h3]
          have : (0 : ℤ) ≤ spr * (k : ℤ) := mul_nonneg (by omega) (Int.natCast_nonneg k)
          omega
      rw [ih (i + 1) (rem - min spr rem) h1 h2]
      ring

theorem calculateCabinTotalSeats_eq_sum (l : List CabinRow) :
    calculateCabinTotalSeats l = (l.map (fun r => r.seats)).sum := by
  cases l <;> simp [calculateCabinTotalSeats]

/-- C7 counterexample: at `capacity = 0` (with `maxPerRow = 6 ≥ 1`,
`maxRows = 40 ≥ 1`) the source raises `ZeroDivisionError` instead of
producing a layout, so the claim's universal quantification over
`capacity ≥ 0` fails. -/
theorem getDefaultLayout_zero_capacity_cex :
    getDefaultLayout 0 6 40 = Except.error "integer division or modulo by zero" := rfl

/-- C7 (amended): for every `capacity ≥ 1`, `maxPerRow ≥ 1`, `maxRows ≥ 1`,
`get_default_layout` succeeds with at most `maxRows` rows, no row above
`maxPerRow` seats, and a seat total equal to `capacity` whenever
`capacity ≤ maxPerRow * maxRows`; being a pure function it is
deterministic. -/
theorem getDefaultLayout_spec (capacity maxPerRow maxRows : ℤ)
    (hcap : 1 ≤ capacity) (hrow : 1 ≤ maxPerRow) (hmax : 1 ≤ maxRows) :
    ∃ layout, getDefaultLayout capacity maxPerRow maxRows = .ok layout
      ∧ (layout.length : ℤ) ≤ maxRows
      ∧ (∀ r ∈ layout, r.seats ≤ maxPerRow)
      ∧ (capacity ≤ maxPerRow * maxRows → calculateCabinTotalSeats layout = capacity)
      ∧ getDefaultLayout capacity maxPerRow maxRows
          = getDefaultLayout capacity maxPerRow maxRows := by
  have hspr : 1 ≤ min maxPerRow capacity := le_min hrow hcap
  unfold getDefaultLayout
  rw [if_neg (by omega : ¬(min maxPerRow capacity = 0))]
  dsimp only
  set spr := min maxPerRow capacity with hsprdef
  set c := (capacity + spr - 1).fdiv spr with hcdef
  set rows := max 1 (min maxRows c) with hrowsdef
  have hrows1 : 1 ≤ rows := le_max_left _ _
  refine ⟨_, rfl, ?_, ?_, ?_, rfl⟩
  · have h1 : (buildDefaultRows rows.toNat 0 spr capacity).length ≤ rows.toNat :=
      buildDefaultRows_length _ _ _ _
    have h2 : rows ≤ maxRows := max_le hmax (min_le_left _ _)
    omega
  · intro r hr
    exact le_trans (buildDefaultRows_seats_le _ _ _ _ r hr) (min_le_left _ _)
  · intro hbound
    rw [calculateCabinTotalSeats_eq_sum]
    refine buildDefaultRows_sum _ _ _ _ hspr (by omega) ?_
    rcases le_or_lt capacity maxPerRow with hcm | hcm
    · have hs : spr = capacity := by rw [hsprdef]; exact min_eq_right hcm
      rw [hs]
      have : (1 : ℤ) ≤ (rows.toNat : ℤ) := by omega
      exact le_mul_of_one_le_right (by omega) this
    · have hs : spr = maxPerRow := by rw [hsprdef]; exact min_eq_left (le_of_lt hcm)
      have hpos : 0 < spr := by omega
      have hfd : (capacity + spr - 1).fdiv spr = (capacity + spr - 1) / spr :=
        Int.fdiv_eq_ediv _ (by omega)
      have hge : capacity ≤ spr * c := by
        rw [hcdef, hfd]
        have hdm := Int.ediv_add_emod (capacity + spr - 1) spr
        have hmod := Int.emod_lt_of_pos (capacity + spr - 1) hpos
        linarith [hdm, hmod]
      have hcmax : c ≤ maxRows := by
        rw [hcdef, hfd]
        have h5 : capacity + spr - 1 ≤ (spr - 1) + spr * maxRows := by
          have h6 : capacity ≤ spr * maxRows := by rw [hs]; exact hbound
          linarith
        calc (capacity + spr - 1) / spr ≤ ((spr - 1) + spr * maxRows) / spr :=
              Int.ediv_le_ediv hpos h5
          _ = (spr - 1) / spr + maxRows := Int.add_mul_ediv_left _ _ (by omega)
          _ = 0 + maxRows := by rw [Int.ediv_eq_zero_of_lt (by omega) (by omega)]
          _ = maxRows := by omega
      have hc1 : 1 ≤ c := by
        rw [hcdef, hfd]
        exact (Int.le_ediv_iff_mul_le hpos).mpr (by omega)
      have hrc : rows = c := by
        rw [hrowsdef, min_eq_right hcmax, max_eq_right hc1]
      calc capacity ≤ spr * c := hge
        _ = spr * ((rows.toNat : ℤ)) := by rw [hrc, Int.toNat_of_nonneg (by omega)]

/-- Witness for C7 at `capacity = 5`, `maxPerRow = 2`, `maxRows = 3`. -/
theorem getDefaultLayout_spec_witness :
    (1 : ℤ) ≤ 5 ∧ (1 : ℤ) ≤ 2 ∧ (1 : ℤ) ≤ 3
    ∧ (∃ layout, getDefaultLayout 5 2 3 = .ok layout
        ∧ (layout.length : ℤ) ≤ 3
        ∧ (∀ r ∈ layout, r.seats ≤ 2)
        ∧ ((5 : ℤ) ≤ 2 * 3 → calculateCabinTotalSeats layout = 5)
        ∧ getDefaultLayout 5 2 3 = getDefaultLayout 5 2 3) :=
  ⟨by norm_num, by norm_num, by norm_num,
    getDefaultLayout_spec 5 2 3 (by norm_num) (by norm_num) (by norm_num)⟩

/-- Source `fixA320` with the grounded flag set. -/
def fixA320G : Aircraft := { fixA320 with grounded := true }

/-- C3 counterexample: `start_flight` on a grounded aircraft raises nothing —
it succeeds and creates the flight. -/
theorem startFlight_grounded_cex :
    (startFlight 0 3 "F1" "AC1" "HOME-JFK" 100 1 (mkState 0 [fixA320G] [])).toOption.isSome
        = true
    ∧ fixA320G.grounded = true := by
  constructor
  · rfl
  · rfl

/-- C3 (amended): the grounded gate lives in `preflight_check`, which for a
grounded fleet aircraft returns the verdict
`{failed: true, component: "Aircraft Status", severity: "Critical",
mel: false}` (a returned dict, not a raised error, with no state change);
`start_flight` itself performs no grounded check and appends the flight
unconditionally. -/
theorem groundedGate_spec (aid : String) (flightHours : ℚ) (s : State) (ac : Aircraft)
    (hfind : findAircraftInFleet s.fleet aid = some ac)
    (hg : ac.grounded = true) :
    preflightCheck aid flightHours s
      = .ok { failed := true, component := some "Aircraft Status",
              severity := some "Critical", mel := false }
    ∧ ∀ now month fid route price dur, ∃ s',
        startFlight now month fid aid route price dur s = .ok s'
        ∧ s'.activeFlights.length = s.activeFlights.length + 1 := by
  constructor
  · unfold preflightCheck
    rw [hfind]
    dsimp only
    rw [if_pos hg]
  · intro now month fid route price dur
    unfold startFlight
    rw [hfind]
    exact ⟨_, rfl, by simp⟩

/-- Witness for C3 at a concrete grounded A320. -/
theorem groundedGate_spec_witness :
    findAircraftInFleet (mkState 0 [fixA320G] []).fleet "AC1" = some fixA320G
    ∧ fixA320G.grounded = true
    ∧ (preflightCheck "AC1" 1 (mkState 0 [fixA320G] [])
        = .ok { failed := true, component := some "Aircraft Status",
                severity := some "Critical", mel := false }
      ∧ ∀ now month fid route price dur, ∃ s',
          startFlight now month fid "AC1" route price dur (mkState 0 [fixA320G] []) = .ok s'
          ∧ s'.activeFlights.length = (mkState 0 [fixA320G] []).activeFlights.length + 1) :=
  ⟨rfl, rfl, groundedGate_spec "AC1" 1 (mkState 0 [fixA320G] []) fixA320G rfl rfl⟩

/-- C6 counterexample: a principal of 0 is within the available credit
(which is at least the $10,000 clamp floor), yet `take_loan` raises instead
of crediting cash and appending a loan. -/
theorem takeLoan_zero_principal_cex :
    takeLoan 0 0 "L1" 0 0 12 "Bank" (mkState 0 [] [])
        = Except.error "Principal must be positive"
    ∧ (0 : ℤ) ≤ calculateMaxLoanAmount (mkState 0 [] []) - totalDebt (mkState 0 [] []) := by
  constructor
  · rfl
  · norm_num [calculateMaxLoanAmount, totalDebt, mkState, pyInt]

/-- C6 (amended): for every positive principal and positive term: a
principal strictly above `calculateMaxLoanAmount() - totalDebt` makes
`take_loan` raise (no mutation, no save); a principal within that limit
succeeds, credits cash by exactly the principal, and appends exactly one
loan whose `remaining_balance` equals the principal.  (A nonpositive
principal raises "Principal must be positive" even when within the limit.) -/
theorem takeLoan_spec (now dayNow : ℤ) (newId : String) (principal : ℤ) (apr : ℚ)
    (term : ℤ) (bank : String) (s : State)
    (hterm : 1 ≤ term) (hapr : 0 ≤ apr) :
    (calculateMaxLoanAmount s - totalDebt s < principal →
      ∃ e, takeLoan now dayNow newId principal apr term bank s = .error e)
    ∧ (0 < principal → principal ≤ calculateMaxLoanAmount s - totalDebt s →
      ∃ s' L, takeLoan now dayNow newId principal apr term bank s = .ok s'
        ∧ s'.cash = s.cash + principal
        ∧ s'.loans = s.loans ++ [L]
        ∧ L.remainingBalance = principal
        ∧ L.principal = principal) := by
  constructor
  · intro hover
    unfold takeLoan
    by_cases hp : principal ≤ 0
    · rw [if_pos hp]
      exact ⟨_, rfl⟩
    · rw [if_neg hp]
      dsimp only
      rw [if_pos (by omega : principal > calculateMaxLoanAmount s - totalDebt s)]
      exact ⟨_, rfl⟩
  · intro hp hle
    unfold takeLoan
    rw [if_neg (by omega : ¬(principal ≤ 0))]
    dsimp only
    rw [if_neg (by omega : ¬(principal > calculateMaxLoanAmount s - totalDebt s))]
    by_cases hr : apr / 12 = 0
    · rw [if_pos hr, if_neg (by omega : ¬(term = 0))]
      dsimp only
      exact ⟨_, _, rfl, rfl, rfl, rfl, rfl⟩
    · rw [if_neg hr]
      have hrpos : 0 < apr / 12 := lt_of_le_of_ne (by positivity) (Ne.symm hr)
      have hgt : 1 < (1 + apr / 12) ^ term := by
        obtain ⟨n, rfl⟩ := Int.eq_ofNat_of_zero_le (le_trans (by norm_num) hterm)
        rw [zpow_natCast]
        exact one_lt_pow₀ (by linarith) (by omega)
      rw [if_neg (by intro h0; linarith [hgt, h0] : ¬((1 + apr / 12) ^ term - 1 = 0))]
      dsimp only
      exact ⟨_, _, rfl, rfl, rfl, rfl, rfl⟩

/-- Witness for C6: a $10,000 loan at 0% over 12 months from the clamp-floor
credit limit of an empty company. -/
theorem takeLoan_spec_witness :
    (1 : ℤ) ≤ 12 ∧ (0 : ℚ) ≤ 0
    ∧ (0 : ℤ) < 10000
    ∧ (10000 : ℤ) ≤ calculateMaxLoanAmount (mkState 0 [] []) - totalDebt (mkState 0 [] [])
    ∧ (∃ s' L, takeLoan 0 0 "L1" 10000 0 12 "Bank" (mkState 0 [] []) = .ok s'
        ∧ s'.cash = (mkState 0 [] []).cash + 10000
        ∧ s'.loans = (mkState 0 [] []).loans ++ [L]
        ∧ L.remainingBalance = 10000
        ∧ L.principal = 10000) :=
  ⟨by norm_num, le_refl 0, by norm_num,
    by norm_num [calculateMaxLoanAmount, totalDebt, mkState, pyInt],
    (takeLoan_spec 0 0 "L1" 10000 0 12 "Bank" (mkState 0 [] []) (by norm_num)
        (le_refl 0)).2 (by norm_num)
      (by norm_num [calculateMaxLoanAmount, totalDebt, mkState, pyInt])⟩

/-- C10: cash non-negativity is not an invariant: with zero cash, the daily
tick's $5,000 parking-violation fine for a large aircraft parked without
owned parking, and `cancel_flight`'s 10% refund fee, are both deducted with
no funds check, leaving cash strictly negative. -/
theorem cash_not_invariant :
    (runDailyTick 1000000 5 (fun _ => 15)
        (mkState 0 [{ fixA320 with location := "JFK" }] [])).2.cash = -5000
    ∧ (-5000 : ℤ) < 0
    ∧ (cancelFlight 1000000 "F1" (mkState 0 [fixA320] [fixFlight])).toOption.map
        (fun p => p.2.cash) = some (-1500)
    ∧ (-1500 : ℤ) < 0 := by
  refine ⟨?_, by norm_num, ?_, by norm_num⟩
  · rfl
  · simp only [cancelFlight, popFlight, mkState, fixFlight]
    norm_num [pyInt, updateReputation, addLedger]
    exact ⟨_, _, rfl, rfl⟩

theorem endFlightAnswersPhase_cash (answers : Option QualityAnswers) (s : State) :
    (endFlightAnswersPhase answers s).2.2.cash = s.cash := by
  cases h : answeredQuality answers <;>
    simp [endFlightAnswersPhase, h, updateReputation]

theorem endFlightFeedbackPhase_cash (feedback : PassengerFeedback)
    (rc nr : ℚ) (s1 : State) :
    (endFlightFeedbackPhase feedback rc nr s1).2.2.cash = s1.cash := by
  unfold endFlightFeedbackPhase
  split_ifs <;> simp [updateReputation]

/-- Zero draws for the passenger-feedback randomness. -/
def fixDraws : FeedbackDraws where
  excellent := 0
  good := 0
  poor := 0

/-- C1: for every flight settled by `end_flight` with the flown aircraft
present in the fleet, the result reports `revenue = passengers *
ticket_price` and `net = (revenue - cost - penalty + reputationBonus) * 3`,
and cash increases by exactly `net`. -/
theorem endFlight_net_settlement (now : ℤ) (draws : FeedbackDraws)
    (answers : Option QualityAnswers) (fid : String) (s : State)
    (f : Flight) (rest : List Flight) (ac : Aircraft)
    (hpop : popFlight s.activeFlights fid = some (f, rest))
    (hfind : findAircraftInFleet s.fleet f.aircraftId = some ac) :
    ∃ r s', endFlight now draws answers fid s = .ok (r, s')
      ∧ r.revenue = f.passengers * f.ticketPrice
      ∧ r.net = (r.revenue - r.cost - r.penalty + r.reputationBonus) * 3
      ∧ s'.cash = s.cash + r.net := by
  unfold endFlight
  rw [hpop]
  dsimp only
  rw [hfind]
  refine ⟨_, _, rfl, rfl, rfl, ?_⟩
  show (endFlightWithAircraft now draws answers f rest ac s).2.cash
    = s.cash + (endFlightWithAircraft now draws answers f rest ac s).1.net
  unfold endFlightWithAircraft
  dsimp only
  rw [addLedger_cash]
  dsimp only
  rw [endFlightFeedbackPhase_cash, endFlightAnswersPhase_cash]

/-- Witness for C1 at a concrete flight and fleet. -/
theorem endFlight_net_settlement_witness :
    popFlight (mkState 0 [fixA320] [fixFlight]).activeFlights "F1" = some (fixFlight, [])
    ∧ findAircraftInFleet (mkState 0 [fixA320] [fixFlight]).fleet fixFlight.aircraftId
        = some fixA320
    ∧ (∃ r s', endFlight 1000000 fixDraws none "F1" (mkState 0 [fixA320] [fixFlight])
          = .ok (r, s')
        ∧ r.revenue = fixFlight.passengers * fixFlight.ticketPrice
        ∧ r.net = (r.revenue - r.cost - r.penalty + r.reputationBonus) * 3
        ∧ s'.cash = (mkState 0 [fixA320] [fixFlight]).cash + r.net) :=
  ⟨rfl, rfl,
    endFlight_net_settlement 1000000 fixDraws none "F1" (mkState 0 [fixA320] [fixFlight])
      fixFlight [] fixA320 rfl rfl⟩

theorem oilChangeCheck_none (ac1 : Aircraft) (h : ac1.oil = none) :
    oilChangeCheck ac1 = { aircraft := ac1, penalty := 0, reasons := [] } := by
  unfold oilChangeCheck
  rw [h]

theorem maintenanceChecks_all_overdue (ac0 : Aircraft)
    (hA : ac0.hoursSinceACheck / maintenanceIntervalA > 6/5)
    (hB : ac0.hoursSinceBCheck / maintenanceIntervalB > 11/10)
    (hC : ac0.hoursSinceCCheck / maintenanceIntervalC > 21/20) :
    (maintenanceChecks ac0).penalty
        = pyInt (5000 * (ac0.hoursSinceACheck / maintenanceIntervalA - 1))
          + pyInt (15000 * (ac0.hoursSinceBCheck / maintenanceIntervalB - 1))
          + pyInt (50000 * (ac0.hoursSinceCCheck / maintenanceIntervalC - 1))
    ∧ (maintenanceChecks ac0).aircraft.reliability
        = max 0 (max 0 (max 0 (ac0.reliability
            - 1/50 * (ac0.hoursSinceACheck / maintenanceIntervalA - 1))
            - 1/20 * (ac0.hoursSinceBCheck / maintenanceIntervalB - 1))
            - 3/20 * (ac0.hoursSinceCCheck / maintenanceIntervalC - 1))
    ∧ (ac0.hoursSinceCCheck / maintenanceIntervalC > 6/5 →
        (maintenanceChecks ac0).aircraft.grounded = true)
    ∧ (maintenanceChecks ac0).aircraft.hoursSinceMaintenance = ac0.hoursSinceMaintenance
    ∧ (maintenanceChecks ac0).aircraft.maintenanceDueHours = ac0.maintenanceDueHours := by
  have hAge : ac0.hoursSinceACheck ≥ maintenanceIntervalA := by
    rw [ge_iff_le, ← div_le_div_iff_of_pos_right (by norm_num [maintenanceIntervalA] : (0:ℚ) < maintenanceIntervalA)]
    rw [div_self (by norm_num [maintenanceIntervalA] : (maintenanceIntervalA : ℚ) ≠ 0)]
    linarith
  have hBge : ac0.hoursSinceBCheck ≥ maintenanceIntervalB := by
    rw [ge_iff_le, ← div_le_div_iff_of_pos_right (by norm_num [maintenanceIntervalB] : (0:ℚ) < maintenanceIntervalB)]
    rw [div_self (by norm_num [maintenanceIntervalB] : (maintenanceIntervalB : ℚ) ≠ 0)]
    linarith
  have hCge : ac0.hoursSinceCCheck ≥ maintenanceIntervalC := by
    rw [ge_iff_le, ← div_le_div_iff_of_pos_right (by norm_num [maintenanceIntervalC] : (0:ℚ) < maintenanceIntervalC)]
    rw [div_self (by norm_num [maintenanceIntervalC] : (maintenanceIntervalC : ℚ) ≠ 0)]
    linarith
  unfold maintenanceChecks
  dsimp only
  simp only [eq_true (And.intro hAge hA), if_true]
  simp only [eq_true (And.intro hBge hB), if_true]
  simp only [eq_true (And.intro hCge hC), if_true]
  refine ⟨trivial, ?_, ?_, ?_, ?_⟩
  · split_ifs <;> rfl
  · intro hc12
    simp only [eq_true hc12, true_and, if_true]
  · split_ifs <;> rfl
  · split_ifs <;> rfl

theorem legacyMaintenanceCheck_not_due (ac1 : Aircraft)
    (h : ¬(ac1.hoursSinceMaintenance > ac1.maintenanceDueHours)) :
    legacyMaintenanceCheck ac1 = ac1 := by
  unfold legacyMaintenanceCheck
  rw [if_neg h]

/-- C2 (amended): for a flight ended on an oil-untracked fleet aircraft
whose post-flight counters put all three checks past their thresholds
(A > 1.2×, B > 1.1×, C > 1.05× of 150h/750h/4000h) and whose legacy
counter is not overdue, the reported penalty is
`int(5000*(fA-1)) + int(15000*(fB-1)) + int(50000*(fC-1))` and the
aircraft's reliability becomes the sequential application of the decrements
`0.02*(fA-1)`, `0.05*(fB-1)`, `0.15*(fC-1)` — each relative to factor minus
one, not the raw factor — floored at 0 at every step; a C factor above 1.2
grounds the aircraft. -/
theorem endFlight_overdue_penalties (now : ℤ) (draws : FeedbackDraws)
    (answers : Option QualityAnswers) (fid : String) (s : State)
    (f : Flight) (rest : List Flight) (ac : Aircraft)
    (hpop : popFlight s.activeFlights fid = some (f, rest))
    (hfind : findAircraftInFleet s.fleet f.aircraftId = some ac)
    (hoil : ac.oil = none)
    (hlegacy : ¬(ac.hoursSinceMaintenance + f.durationHours > ac.maintenanceDueHours))
    (hA : (ac.hoursSinceACheck + f.durationHours) / maintenanceIntervalA > 6/5)
    (hB : (ac.hoursSinceBCheck + f.durationHours) / maintenanceIntervalB > 11/10)
    (hC : (ac.hoursSinceCCheck + f.durationHours) / maintenanceIntervalC > 21/20) :
    ∃ r s', endFlight now draws answers fid s = .ok (r, s')
      ∧ r.penalty
          = pyInt (5000 * ((ac.hoursSinceACheck + f.durationHours) / maintenanceIntervalA - 1))
            + pyInt (15000 * ((ac.hoursSinceBCheck + f.durationHours) / maintenanceIntervalB - 1))
            + pyInt (50000 * ((ac.hoursSinceCCheck + f.durationHours) / maintenanceIntervalC - 1))
      ∧ r.reliability = some (max 0 (max 0 (max 0 (ac.reliability
            - 1/50 * ((ac.hoursSinceACheck + f.durationHours) / maintenanceIntervalA - 1))
            - 1/20 * ((ac.hoursSinceBCheck + f.durationHours) / maintenanceIntervalB - 1))
            - 3/20 * ((ac.hoursSinceCCheck + f.durationHours) / maintenanceIntervalC - 1)))
      ∧ ((ac.hoursSinceCCheck + f.durationHours) / maintenanceIntervalC > 6/5 →
          r.grounded = true) := by
  have hoil1 : (addFlightHours ac f.durationHours).oil = none := by
    simp [addFlightHours, hoil]
  have hoc := oilChangeCheck_none _ hoil1
  have hA1 : (addFlightHours ac f.durationHours).hoursSinceACheck / maintenanceIntervalA > 6/5 := by
    simpa [addFlightHours] using hA
  have hB1 : (addFlightHours ac f.durationHours).hoursSinceBCheck / maintenanceIntervalB > 11/10 := by
    simpa [addFlightHours] using hB
  have hC1 : (addFlightHours ac f.durationHours).hoursSinceCCheck / maintenanceIntervalC > 21/20 := by
    simpa [addFlightHours] using hC
  have hmc := maintenanceChecks_all_overdue (addFlightHours ac f.durationHours) hA1 hB1 hC1
  have hmsm : (maintenanceChecks (addFlightHours ac f.durationHours)).aircraft.hoursSinceMaintenance
      = ac.hoursSinceMaintenance + f.durationHours := by
    rw [hmc.2.2.2.1]
    simp [addFlightHours]
  have hmdh : (maintenanceChecks (addFlightHours ac f.durationHours)).aircraft.maintenanceDueHours
      = ac.maintenanceDueHours := by
    rw [hmc.2.2.2.2]
    simp [addFlightHours]
  have hleg := legacyMaintenanceCheck_not_due
    (maintenanceChecks (addFlightHours ac f.durationHours)).aircraft
    (by rw [hmsm, hmdh]; exact hlegacy)
  unfold endFlight
  rw [hpop]
  dsimp only
  rw [hfind]
  refine ⟨_, _, rfl, ?_, ?_, ?_⟩
  · show (endFlightWithAircraft now draws answers f rest ac s).1.penalty = _
    simp only [endFlightWithAircraft]
    rw [hoc]
    dsimp only
    rw [zero_add, hmc.1]
    simp [addFlightHours]
  · show (endFlightWithAircraft now draws answers f rest ac s).1.reliability = _
    simp only [endFlightWithAircraft]
    rw [hoc]
    dsimp only
    rw [hleg]
    rw [show ∀ x : Aircraft, ∀ d : String, ({ x with location := d } : Aircraft).reliability
        = x.reliability from fun _ _ => rfl]
    rw [hmc.2.1]
    simp [addFlightHours]
  · intro h12
    show (endFlightWithAircraft now draws answers f rest ac s).1.grounded = true
    simp only [endFlightWithAircraft]
    rw [hoc]
    dsimp only
    rw [hleg]
    rw [show ∀ x : Aircraft, ∀ d : String, ({ x with location := d } : Aircraft).grounded
        = x.grounded from fun _ _ => rfl]
    exact hmc.2.2.1 (by simpa [addFlightHours] using h12)

/-- Source `fixA320` with all three check counters overdue (factors 2.5, 2, 2.5). -/
def fixAcOverdue : Aircraft :=
  { fixA320 with hoursSinceACheck := 375, hoursSinceBCheck := 1500, hoursSinceCCheck := 10000 }

/-- Source `fixFlight` with zero duration (counters unchanged by the flight). -/
def fixFlightZero : Flight := { fixFlight with durationHours := 0 }

/-- C2 counterexample: with factors fA = 2.5, fB = 2, fC = 2.5 and initial
reliability 1, `end_flight` reports reliability 0.695 = 1 - 0.02·(fA-1)
- 0.05·(fB-1) - 0.15·(fC-1), not the claimed 1 - 0.02·fA - 0.05·fB
- 0.15·fC = 0.475. -/
theorem endFlight_overdue_decrement_cex :
    (endFlight 1000000 fixDraws none "F1"
        (mkState 0 [fixAcOverdue] [fixFlightZero])).toOption.map
        (fun p => p.1.reliability) = some (some (139/200))
    ∧ (139/200 : ℚ) ≠ 1 - 1/50 * (5/2) - 1/20 * 2 - 3/20 * (5/2) := by
  constructor
  · unfold endFlight
    rw [show popFlight (mkState 0 [fixAcOverdue] [fixFlightZero]).activeFlights "F1"
        = some (fixFlightZero, []) from rfl]
    dsimp only
    rw [show findAircraftInFleet (mkState 0 [fixAcOverdue] [fixFlightZero]).fleet
          fixFlightZero.aircraftId = some fixAcOverdue from rfl]
    dsimp only [Except.toOption, Option.map]
    congr 1
    have hdz : fixFlightZero.durationHours = 0 := rfl
    simp only [endFlightWithAircraft, hdz]
    rw [oilChangeCheck_none _ (by simp [addFlightHours, fixAcOverdue, fixA320])]
    dsimp only
    have hmc := maintenanceChecks_all_overdue (addFlightHours fixAcOverdue 0)
      (by norm_num [addFlightHours, fixAcOverdue, fixA320, maintenanceIntervalA])
      (by norm_num [addFlightHours, fixAcOverdue, fixA320, maintenanceIntervalB])
      (by norm_num [addFlightHours, fixAcOverdue, fixA320, maintenanceIntervalC])
    rw [legacyMaintenanceCheck_not_due _ (by
      rw [hmc.2.2.2.1, hmc.2.2.2.2]
      norm_num [addFlightHours, fixAcOverdue, fixA320])]
    rw [show ∀ x : Aircraft, ∀ d : String, ({ x with location := d } : Aircraft).reliability
        = x.reliability from fun _ _ => rfl]
    rw [hmc.2.1]
    norm_num [addFlightHours, fixAcOverdue, fixA320, maintenanceIntervalA,
      maintenanceIntervalB, maintenanceIntervalC, max_def]
  · norm_num

/-- Witness for C2 at the same concrete overdue aircraft. -/
theorem endFlight_overdue_penalties_witness :
    popFlight (mkState 0 [fixAcOverdue] [fixFlightZero]).activeFlights "F1"
        = some (fixFlightZero, [])
    ∧ findAircraftInFleet (mkState 0 [fixAcOverdue] [fixFlightZero]).fleet
        fixFlightZero.aircraftId = some fixAcOverdue
    ∧ fixAcOverdue.oil = none
    ∧ ¬(fixAcOverdue.hoursSinceMaintenance + fixFlightZero.durationHours
        > fixAcOverdue.maintenanceDueHours)
    ∧ (fixAcOverdue.hoursSinceACheck + fixFlightZero.durationHours) / maintenanceIntervalA > 6/5
    ∧ (fixAcOverdue.hoursSinceBCheck + fixFlightZero.durationHours) / maintenanceIntervalB > 11/10
    ∧ (fixAcOverdue.hoursSinceCCheck + fixFlightZero.durationHours) / maintenanceIntervalC > 21/20
    ∧ (∃ r s', endFlight 1000000 fixDraws none "F1"
          (mkState 0 [fixAcOverdue] [fixFlightZero]) = .ok (r, s')
        ∧ r.penalty
            = pyInt (5000 * ((fixAcOverdue.hoursSinceACheck + fixFlightZero.durationHours)
                / maintenanceIntervalA - 1))
              + pyInt (15000 * ((fixAcOverdue.hoursSinceBCheck + fixFlightZero.durationHours)
                / maintenanceIntervalB - 1))
              + pyInt (50000 * ((fixAcOverdue.hoursSinceCCheck + fixFlightZero.durationHours)
                / maintenanceIntervalC - 1))
        ∧ r.reliability = some (max 0 (max 0 (max 0 (fixAcOverdue.reliability
              - 1/50 * ((fixAcOverdue.hoursSinceACheck + fixFlightZero.durationHours)
                / maintenanceIntervalA - 1))
              - 1/20 * ((fixAcOverdue.hoursSinceBCheck + fixFlightZero.durationHours)
                / maintenanceIntervalB - 1))
              - 3/20 * ((fixAcOverdue.hoursSinceCCheck + fixFlightZero.durationHours)
                / maintenanceIntervalC - 1)))
        ∧ ((fixAcOverdue.hoursSinceCCheck + fixFlightZero.durationHours)
              / maintenanceIntervalC > 6/5 → r.grounded = true)) :=
  ⟨rfl, rfl, rfl,
    by norm_num [fixAcOverdue, fixA320, fixFlightZero, fixFlight],
    by norm_num [fixAcOverdue, fixA320, fixFlightZero, fixFlight, maintenanceIntervalA],
    by norm_num [fixAcOverdue, fixA320, fixFlightZero, fixFlight, maintenanceIntervalB],
    by norm_num [fixAcOverdue, fixA320, fixFlightZero, fixFlight, maintenanceIntervalC],
    endFlight_overdue_penalties 1000000 fixDraws none "F1"
      (mkState 0 [fixAcOverdue] [fixFlightZero]) fixFlightZero [] fixAcOverdue rfl rfl rfl
      (by norm_num [fixAcOverdue, fixA320, fixFlightZero, fixFlight])
      (by norm_num [fixAcOverdue, fixA320, fixFlightZero, fixFlight, maintenanceIntervalA])
      (by norm_num [fixAcOverdue, fixA320, fixFlightZero, fixFlight, maintenanceIntervalB])
      (by norm_num [fixAcOverdue, fixA320, fixFlightZero, fixFlight, maintenanceIntervalC])⟩

theorem demandFraction_anti (hc : ℚ) (cap : ℤ) (comfort dur : ℚ) (p1 p2 : ℤ)
    (hp1 : 0 < p1) (h12 : p1 ≤ p2) :
    demandFraction hc cap comfort dur p2 ≤ demandFraction hc cap comfort dur p1 := by
  have hp2 : 0 < p2 := lt_of_lt_of_le hp1 h12
  have hq1 : (0 : ℚ) < (p1 : ℚ) := by exact_mod_cast hp1
  have hq2 : (0 : ℚ) < (p2 : ℚ) := by exact_mod_cast hp2
  have hq12 : (p1 : ℚ) ≤ (p2 : ℚ) := by exact_mod_cast h12
  unfold demandFraction
  dsimp only
  rw [if_pos hp1, if_pos hp2]
  set b := baselineFare hc cap comfort dur with hb
  set cb := 1 + (comfort - 1) * (3/20) with hcb
  rw [div_mul_eq_mul_div, div_mul_eq_mul_div]
  rcases le_or_lt 0 (b * cb) with hK | hK
  · have hdd : b * cb / (p2 : ℚ) ≤ b * cb / (p1 : ℚ) := by
      gcongr
    exact min_le_min (le_refl 1) (max_le_max (le_refl (1/10)) hdd)
  · have hn2 : b * cb / (p2 : ℚ) < 0 := div_neg_of_neg_of_pos hK hq2
    have hn1 : b * cb / (p1 : ℚ) < 0 := div_neg_of_neg_of_pos hK hq1
    rw [max_eq_left (le_trans (le_of_lt hn2) (by norm_num)),
        max_eq_left (le_trans (le_of_lt hn1) (by norm_num))]

theorem boostStep_nonneg (cap x : ℤ) (hcap : 0 ≤ cap) (hx : 0 ≤ x) (c : ℚ) (hc : 0 ≤ c) :
    0 ≤ min cap (pyInt ((x : ℚ) * c)) :=
  le_min hcap (pyInt_nonneg (mul_nonneg (by exact_mod_cast hx) hc))

theorem boostStep_mono (cap a b : ℤ) (h : a ≤ b) (c : ℚ) (hc : 0 ≤ c) :
    min cap (pyInt ((a : ℚ) * c)) ≤ min cap (pyInt ((b : ℚ) * c)) :=
  min_le_min (le_refl _)
    (pyInt_mono (mul_le_mul_of_nonneg_right (by exact_mod_cast h) hc))

theorem startFlightPassengers_mem (now month : ℤ) (s : State) (ac : Aircraft)
    (p : ℤ) (d : ℚ) :
    0 ≤ startFlightPassengers now month s ac p d
    ∧ startFlightPassengers now month s ac p d ≤ flightCapacity ac := by
  have hcap0 : (0 : ℤ) ≤ flightCapacity ac := le_trans (by norm_num) (flightCapacity_pos ac)
  unfold startFlightPassengers
  dsimp only
  set r := pyRound ((flightCapacity ac : ℚ)
    * (demandFraction (flightHourlyCost ac.typeCode) (flightCapacity ac) (flightComfort ac) d p
      * getSeasonalDemandMultiplier month)) with hr
  have h00 : 0 ≤ max 0 (min r (flightCapacity ac)) := le_max_left _ _
  have h0c : max 0 (min r (flightCapacity ac)) ≤ flightCapacity ac :=
    max_le hcap0 (min_le_right _ _)
  split_ifs
  · exact ⟨boostStep_nonneg _ _ hcap0
        (boostStep_nonneg _ _ hcap0 h00 _ (by norm_num)) _ (by norm_num),
      min_le_left _ _⟩
  · exact ⟨boostStep_nonneg _ _ hcap0 h00 _ (by norm_num), min_le_left _ _⟩
  · exact ⟨boostStep_nonneg _ _ hcap0 h00 _ (by norm_num), min_le_left _ _⟩
  · exact ⟨h00, h0c⟩

theorem startFlightPassengers_anti (now month : ℤ) (s : State) (ac : Aircraft)
    (d : ℚ) (p1 p2 : ℤ) (hp1 : 0 < p1) (h12 : p1 ≤ p2) :
    startFlightPassengers now month s ac p2 d ≤ startFlightPassengers now month s ac p1 d := by
  have hcap0 : (0 : ℤ) ≤ flightCapacity ac := le_trans (by norm_num) (flightCapacity_pos ac)
  have hcq : (0 : ℚ) ≤ (flightCapacity ac : ℚ) := by exact_mod_cast hcap0
  have hd := demandFraction_anti (flightHourlyCost ac.typeCode) (flightCapacity ac)
    (flightComfort ac) d p1 p2 hp1 h12
  have hdm := mul_le_mul_of_nonneg_right hd (seasonal_nonneg month)
  have hprod := mul_le_mul_of_nonneg_left hdm hcq
  have hround := pyRound_mono hprod
  have hp0 : max 0 (min (pyRound ((flightCapacity ac : ℚ)
        * (demandFraction (flightHourlyCost ac.typeCode) (flightCapacity ac)
            (flightComfort ac) d p2 * getSeasonalDemandMultiplier month)))
        (flightCapacity ac))
      ≤ max 0 (min (pyRound ((flightCapacity ac : ℚ)
        * (demandFraction (flightHourlyCost ac.typeCode) (flightCapacity ac)
            (flightComfort ac) d p1 * getSeasonalDemandMultiplier month)))
        (flightCapacity ac)) :=
    max_le_max (le_refl 0) (min_le_min hround (le_refl _))
  unfold startFlightPassengers
  dsimp only
  split_ifs
  · exact boostStep_mono _ _ _ (boostStep_mono _ _ _ hp0 _ (by norm_num)) _ (by norm_num)
  · exact boostStep_mono _ _ _ hp0 _ (by norm_num)
  · exact boostStep_mono _ _ _ hp0 _ (by norm_num)
  · exact hp0

/-- C5 counterexample: at the nonpositive price 0 the demand model falls to
the 0.1 floor (15 passengers on a 150-seat A320), while at price 50 demand
saturates at 150, so raising the price from 0 to 50 increases passengers
and the claimed monotonicity over all price pairs fails. -/
theorem startFlightPassengers_price_cex :
    startFlightPassengers 1000000 3 (mkState 0 [fixA320] []) fixA320 0 (3/2)
      < startFlightPassengers 1000000 3 (mkState 0 [fixA320] []) fixA320 50 (3/2) := by
  have h1 : startFlightPassengers 1000000 3 (mkState 0 [fixA320] []) fixA320 0 (3/2) = 15 := by
    unfold startFlightPassengers
    dsimp only
    rw [show flightCapacity fixA320 = 150 from rfl,
        show flightComfort fixA320 = 1 from rfl,
        show flightHourlyCost fixA320.typeCode = 560 from rfl,
        show getSeasonalDemandMultiplier 3 = 1 from rfl,
        show getAircraftServices (mkState 0 [fixA320] []) fixA320.id = emptyServices from rfl]
    norm_num [demandFraction, baselineFare, emptyServices, pyRound, pyInt, max_def, min_def]
  have h2 : startFlightPassengers 1000000 3 (mkState 0 [fixA320] []) fixA320 50 (3/2) = 150 := by
    unfold startFlightPassengers
    dsimp only
    rw [show flightCapacity fixA320 = 150 from rfl,
        show flightComfort fixA320 = 1 from rfl,
        show flightHourlyCost fixA320.typeCode = 560 from rfl,
        show getSeasonalDemandMultiplier 3 = 1 from rfl,
        show getAircraftServices (mkState 0 [fixA320] []) fixA320.id = emptyServices from rfl]
    norm_num [demandFraction, baselineFare, emptyServices, pyRound, pyInt, max_def, min_def]
  rw [h1, h2]
  norm_num

/-- C5 (amended): the passenger count computed at `start_flight` always lies
in `[0, cap]` (cap: cabin seat total, or catalog capacity without a
layout), and for any two POSITIVE ticket prices `p1 < p2` with all else
fixed, the count at `p2` is at most the count at `p1`.  (For a nonpositive
lower price the demand model's 0.1 floor breaks monotonicity.) -/
theorem startFlightPassengers_range_mono (now month : ℤ) (s : State) (ac : Aircraft)
    (durationHours : ℚ) (p1 p2 : ℤ) (hp1 : 0 < p1) (h12 : p1 < p2) :
    (∀ p : ℤ, 0 ≤ startFlightPassengers now month s ac p durationHours
      ∧ startFlightPassengers now month s ac p durationHours ≤ flightCapacity ac)
    ∧ startFlightPassengers now month s ac p2 durationHours
        ≤ startFlightPassengers now month s ac p1 durationHours :=
  ⟨fun p => startFlightPassengers_mem now month s ac p durationHours,
    startFlightPassengers_anti now month s ac durationHours p1 p2 hp1 (le_of_lt h12)⟩

/-- Witness for C5 at a concrete A320 with prices 50 < 100. -/
theorem startFlightPassengers_range_mono_witness :
    (0 : ℤ) < 50 ∧ (50 : ℤ) < 100
    ∧ (0 ≤ startFlightPassengers 1000000 3 (mkState 0 [fixA320] []) fixA320 50 (3/2)
        ∧ startFlightPassengers 1000000 3 (mkState 0 [fixA320] []) fixA320 50 (3/2)
            ≤ flightCapacity fixA320)
    ∧ startFlightPassengers 1000000 3 (mkState 0 [fixA320] []) fixA320 100 (3/2)
        ≤ startFlightPassengers 1000000 3 (mkState 0 [fixA320] []) fixA320 50 (3/2) :=
  ⟨by norm_num, by norm_num,
    (startFlightPassengers_range_mono 1000000 3 (mkState 0 [fixA320] []) fixA320 (3/2)
      50 100 (by norm_num) (by norm_num)).1 50,
    (startFlightPassengers_range_mono 1000000 3 (mkState 0 [fixA320] []) fixA320 (3/2)
      50 100 (by norm_num) (by norm_num)).2⟩

end AirCommuter
